import Mathlib

/-!
Verification development for the collectd `pcie_errors` plugin
(src/pcie_errors.c).  The C code is shallowly embedded: machine integers
become `Nat` (with `% 2^w` applied where the C type truncates), C truthiness
`x` becomes `x ≠ 0`, fallible reads become `Option Nat` (with `none`
modelling an I/O failure, which `pcie_readN` turns into the value 0 exactly
as the C helpers do), and the notification sink becomes a list of emitted
notification records.  The `time` and `host` fields of a notification are
produced by external collaborators (`cdtime()`, `hostname_g`) and are not
modelled.  The unbounded C `while` loops of the capability walkers are
modelled with an explicit fuel argument; `none` means the budget was
exhausted while the C loop would still be running.
-/

namespace PcieErrors

/-! ## Constants from linux/pci_regs.h and collectd plugin.h -/

def NOTIF_FAILURE : Nat := 1
def NOTIF_WARNING : Nat := 2
def NOTIF_OKAY : Nat := 4

def PCIE_ERRORS_PLUGIN : String := "pcie_errors"
def PCIE_ERROR : String := "pcie_error"
def PCIE_SEV_CE : String := "correctable"
def PCIE_SEV_FATAL : String := "fatal"
def PCIE_SEV_NOFATAL : String := "non_fatal"

def PCI_STATUS : Int := 0x06
def PCI_STATUS_CAP_LIST : Nat := 0x10
def PCI_CAPABILITY_LIST : Int := 0x34
def PCI_CAP_LIST_ID : Nat := 0
def PCI_CAP_LIST_NEXT : Nat := 1
def PCI_CAP_ID_EXP : Nat := 0x10
def PCIE_ECAP_OFFSET : Nat := 0x100
def PCI_EXT_CAP_ID_ERR : Nat := 0x01

def PCI_EXP_DEVSTA : Int := 10
def PCI_EXP_DEVSTA_CED : Nat := 0x1
def PCI_EXP_DEVSTA_NFED : Nat := 0x2
def PCI_EXP_DEVSTA_FED : Nat := 0x4
def PCI_EXP_DEVSTA_URD : Nat := 0x8

def PCI_ERR_UNCOR_STATUS : Int := 4
def PCI_ERR_UNCOR_MASK : Int := 8
def PCI_ERR_UNCOR_SEVER : Int := 12
def PCI_ERR_COR_STATUS : Int := 16
def PCI_ERR_COR_MASK : Int := 20

/-! ## Data model -/

/-- The two configuration flags consumed by the error-state tracker
(`pcie_config.notif_masked`, `pcie_config.persistent`). -/
structure pcie_config_t where
  notif_masked : Bool
  persistent : Bool
deriving DecidableEq, Repr

/-- `pcie_device_t` from the C source: identity, capability offsets
(`-1` = absent, as in C) and the last-observed register snapshot. -/
structure pcie_device_t where
  domain : Nat
  bus : Nat
  device : Nat
  function : Nat
  cap_exp : Int
  ecap_aer : Int
  device_status : Nat
  correctable_errors : Nat
  uncorrectable_errors : Nat
deriving DecidableEq, Repr

/-- The per-device register-access environment: the outcome of
`pcie_fops.open` and of `pcie_fops.read` at each config-space position
(`none` = the `pread` fails / is short, which `pcie_readN` maps to 0). -/
structure pcie_dev_access where
  open_ok : Bool
  read8 : Int → Option Nat
  read16 : Int → Option Nat
  read32 : Int → Option Nat

/-- `pcie_read8`: returns 0 on a failed read, otherwise the byte. -/
def pcie_read8 (acc : pcie_dev_access) (pos : Int) : Nat :=
  ((acc.read8 pos).getD 0) % 256

/-- `pcie_read16`: returns 0 on a failed read, otherwise the 16-bit value. -/
def pcie_read16 (acc : pcie_dev_access) (pos : Int) : Nat :=
  ((acc.read16 pos).getD 0) % 65536

/-- `pcie_read32`: returns 0 on a failed read, otherwise the 32-bit value. -/
def pcie_read32 (acc : pcie_dev_access) (pos : Int) : Nat :=
  ((acc.read32 pos).getD 0) % 4294967296

/-- The fields of collectd's `notification_t` that the plugin fills in
(`time` and `host` are set by external collaborators and not modelled). -/
structure notification_t where
  severity : Nat
  type : String
  type_instance : String
  plugin : String
  plugin_instance : String
  message : String
  meta : List (String × String)
deriving DecidableEq, Repr

/-- `pcie_error_t`: a static catalog entry (bitmask and human name). -/
structure pcie_error_t where
  mask : Nat
  desc : String
deriving DecidableEq, Repr

/-- Device Error Status catalog (`pcie_base_errors`). -/
def pcie_base_errors : List pcie_error_t :=
  [⟨PCI_EXP_DEVSTA_CED, "Correctable Error"⟩,
   ⟨PCI_EXP_DEVSTA_NFED, "Non-Fatal Error"⟩,
   ⟨PCI_EXP_DEVSTA_FED, "Fatal Error"⟩,
   ⟨PCI_EXP_DEVSTA_URD, "Unsupported Request"⟩]

/-- Uncorrectable Error Status catalog (`pcie_aer_ues`). -/
def pcie_aer_ues : List pcie_error_t :=
  [⟨0x10, "Data Link Protocol"⟩,
   ⟨0x20, "Surprise Down"⟩,
   ⟨0x1000, "Poisoned TLP"⟩,
   ⟨0x2000, "Flow Control Protocol"⟩,
   ⟨0x4000, "Completion Timeout"⟩,
   ⟨0x8000, "Completer Abort"⟩,
   ⟨0x10000, "Unexpected Completion"⟩,
   ⟨0x20000, "Receiver Overflow"⟩,
   ⟨0x40000, "Malformed TLP"⟩,
   ⟨0x80000, "ECRC Error Status"⟩,
   ⟨0x100000, "Unsupported Request"⟩,
   ⟨0x200000, "ACS Violation"⟩,
   ⟨0x400000, "Internal"⟩,
   ⟨0x800000, "MC blocked TLP"⟩,
   ⟨0x1000000, "Atomic egress blocked"⟩,
   ⟨0x2000000, "TLP prefix blocked"⟩]

/-- Correctable Error Status catalog (`pcie_aer_ces`). -/
def pcie_aer_ces : List pcie_error_t :=
  [⟨0x1, "Receiver Error Status"⟩,
   ⟨0x40, "Bad TLP Status"⟩,
   ⟨0x80, "Bad DLLP Status"⟩,
   ⟨0x100, "REPLAY_NUM Rollover"⟩,
   ⟨0x1000, "Replay Timer Timeout"⟩,
   ⟨0x2000, "Advisory Non-Fatal"⟩,
   ⟨0x4000, "Corrected Internal"⟩,
   ⟨0x8000, "Header Log Overflow"⟩]

/-! ## Notification formatting -/

/-- Lowercase hex rendering of `n`, zero-padded to width `w` (C `%0wx`). -/
def pcie_hex (n w : Nat) : String :=
  ⟨List.replicate (w - (Nat.toDigits 16 n).length) '0' ++ Nat.toDigits 16 n⟩

/-- The `plugin_instance` string `%04x:%02x:%02x.%d` built by
`pcie_dispatch_notification`. -/
def pcie_dev_instance (dev : pcie_device_t) : String :=
  pcie_hex dev.domain 4 ++ ":" ++ pcie_hex dev.bus 2 ++ ":" ++
    pcie_hex dev.device 2 ++ "." ++ toString dev.function

/-- Message of `ssnprintf(n.message, ..., "Device Status Error set: %s", ...)`. -/
def pcie_devsta_set_msg (d : String) : String := "Device Status Error set: " ++ d

/-- Message for a cleared Device Status error. -/
def pcie_devsta_clr_msg (d : String) : String := "Device Status Error cleared: " ++ d

/-- Message for a set AER correctable error. -/
def pcie_cor_set_msg (d : String) : String := "Correctable Error set: " ++ d

/-- Message for a cleared AER correctable error. -/
def pcie_cor_clr_msg (d : String) : String := "Correctable Error cleared: " ++ d

/-- Message `"Uncorrectable(%s) Error set: %s"`. -/
def pcie_uncor_set_msg (ti d : String) : String :=
  "Uncorrectable(" ++ ti ++ ") Error set: " ++ d

/-- Message `"Uncorrectable(%s) Error cleared: %s"`. -/
def pcie_uncor_clr_msg (ti d : String) : String :=
  "Uncorrectable(" ++ ti ++ ") Error cleared: " ++ d

/-! ## Error State Tracker: per-catalog-entry loop bodies -/

/-- One iteration of the loop of `pcie_dispatch_correctable_errors`:
the notification emitted for catalog entry `err` (if any). -/
def pcie_cor_entry (cfg : pcie_config_t) (dev : pcie_device_t)
    (errors masked : Nat) (err : pcie_error_t) : Option notification_t :=
  if cfg.notif_masked = false ∧ err.mask &&& masked ≠ 0 then none
  else if err.mask &&& errors ≠ 0 then
    if cfg.persistent = false ∧ err.mask &&& dev.correctable_errors ≠ 0 then none
    else some ⟨NOTIF_WARNING, PCIE_ERROR, PCIE_SEV_CE, PCIE_ERRORS_PLUGIN,
               pcie_dev_instance dev, pcie_cor_set_msg err.desc, []⟩
  else if err.mask &&& dev.correctable_errors ≠ 0 then
    some ⟨NOTIF_OKAY, PCIE_ERROR, PCIE_SEV_CE, PCIE_ERRORS_PLUGIN,
          pcie_dev_instance dev, pcie_cor_clr_msg err.desc, []⟩
  else none

/-- `pcie_dispatch_correctable_errors`, as the list of notifications emitted. -/
def pcie_dispatch_correctable_errors (cfg : pcie_config_t) (dev : pcie_device_t)
    (errors masked : Nat) : List notification_t :=
  pcie_aer_ces.filterMap (pcie_cor_entry cfg dev errors masked)

/-- One iteration of the loop of `pcie_dispatch_uncorrectable_errors`. -/
def pcie_uncor_entry (cfg : pcie_config_t) (dev : pcie_device_t)
    (errors masked severity : Nat) (err : pcie_error_t) : Option notification_t :=
  let type_instance := if severity &&& err.mask ≠ 0 then PCIE_SEV_FATAL else PCIE_SEV_NOFATAL
  if cfg.notif_masked = false ∧ err.mask &&& masked ≠ 0 then none
  else if err.mask &&& errors ≠ 0 then
    if cfg.persistent = false ∧ err.mask &&& dev.uncorrectable_errors ≠ 0 then none
    else some ⟨if severity &&& err.mask ≠ 0 then NOTIF_FAILURE else NOTIF_WARNING,
               PCIE_ERROR, type_instance, PCIE_ERRORS_PLUGIN,
               pcie_dev_instance dev, pcie_uncor_set_msg type_instance err.desc, []⟩
  else if err.mask &&& dev.uncorrectable_errors ≠ 0 then
    some ⟨NOTIF_OKAY, PCIE_ERROR, type_instance, PCIE_ERRORS_PLUGIN,
          pcie_dev_instance dev, pcie_uncor_clr_msg type_instance err.desc, []⟩
  else none

/-- `pcie_dispatch_uncorrectable_errors`, as the list of notifications emitted. -/
def pcie_dispatch_uncorrectable_errors (cfg : pcie_config_t) (dev : pcie_device_t)
    (errors masked severity : Nat) : List notification_t :=
  pcie_aer_ues.filterMap (pcie_uncor_entry cfg dev errors masked severity)

/-- One iteration of the reporting loop of `pcie_check_dev_status`
(`new_status` is the already-masked fresh Device Status value). -/
def pcie_devsta_entry (cfg : pcie_config_t) (dev : pcie_device_t)
    (new_status : Nat) (err : pcie_error_t) : Option notification_t :=
  let type_instance := if err.mask = PCI_EXP_DEVSTA_FED then PCIE_SEV_FATAL
                       else if err.mask = PCI_EXP_DEVSTA_CED then PCIE_SEV_CE
                       else PCIE_SEV_NOFATAL
  let sev := if err.mask = PCI_EXP_DEVSTA_FED then NOTIF_FAILURE else NOTIF_WARNING
  if err.mask &&& new_status ≠ 0 then
    if cfg.persistent = false ∧ err.mask &&& dev.device_status ≠ 0 then none
    else some ⟨sev, PCIE_ERROR, type_instance, PCIE_ERRORS_PLUGIN,
               pcie_dev_instance dev, pcie_devsta_set_msg err.desc, []⟩
  else if err.mask &&& dev.device_status ≠ 0 then
    some ⟨NOTIF_OKAY, PCIE_ERROR, type_instance, PCIE_ERRORS_PLUGIN,
          pcie_dev_instance dev, pcie_devsta_clr_msg err.desc, []⟩
  else none

/-- `pcie_check_dev_status`: read the Device Status register (masked to the
low error nibble), early-return when nothing new must be reported, otherwise
report per-bit transitions and store the new baseline. -/
def pcie_check_dev_status (cfg : pcie_config_t) (dev : pcie_device_t)
    (acc : pcie_dev_access) (pos : Int) : List notification_t × pcie_device_t :=
  let new_status := pcie_read16 acc (pos + PCI_EXP_DEVSTA) &&& 0xf
  if ¬(cfg.persistent = true ∧ new_status ≠ 0) ∧ new_status = dev.device_status then
    ([], dev)
  else
    (pcie_base_errors.filterMap (pcie_devsta_entry cfg dev new_status),
     { dev with device_status := new_status })

/-- `pcie_check_aer`: diff the AER uncorrectable then correctable status
registers against the stored baselines; each baseline is overwritten with the
fresh value unconditionally. -/
def pcie_check_aer (cfg : pcie_config_t) (dev : pcie_device_t)
    (acc : pcie_dev_access) (pos : Int) : List notification_t × pcie_device_t :=
  let errors := pcie_read32 acc (pos + PCI_ERR_UNCOR_STATUS)
  let uncor_events :=
    if (cfg.persistent = true ∧ errors ≠ 0) ∨ errors ≠ dev.uncorrectable_errors then
      pcie_dispatch_uncorrectable_errors cfg dev errors
        (pcie_read32 acc (pos + PCI_ERR_UNCOR_MASK))
        (pcie_read32 acc (pos + PCI_ERR_UNCOR_SEVER))
    else []
  let dev1 := { dev with uncorrectable_errors := errors }
  let errors2 := pcie_read32 acc (pos + PCI_ERR_COR_STATUS)
  let cor_events :=
    if (cfg.persistent = true ∧ errors2 ≠ 0) ∨ errors2 ≠ dev1.correctable_errors then
      pcie_dispatch_correctable_errors cfg dev1 errors2
        (pcie_read32 acc (pos + PCI_ERR_COR_MASK))
    else []
  (uncor_events ++ cor_events, { dev1 with correctable_errors := errors2 })

/-- The failure notification built in the else-branch of
`pcie_process_devices` when `pcie_fops.open` fails. -/
def pcie_open_fail_notif (dev : pcie_device_t) : notification_t :=
  ⟨NOTIF_FAILURE, "", "", PCIE_ERRORS_PLUGIN, pcie_dev_instance dev,
   "Failed to read device status", []⟩

/-- The per-device body of the loop of `pcie_process_devices`. -/
def pcie_poll_device (cfg : pcie_config_t) (dev : pcie_device_t)
    (acc : pcie_dev_access) : List notification_t × pcie_device_t :=
  if acc.open_ok then
    let r1 := pcie_check_dev_status cfg dev acc dev.cap_exp
    let r2 := if r1.2.ecap_aer ≠ -1 then pcie_check_aer cfg r1.2 acc r1.2.ecap_aer
              else ([], r1.2)
    (r1.1 ++ r2.1, r2.2)
  else ([pcie_open_fail_notif dev], dev)

/-- `pcie_process_devices`: poll every registered device; an open failure
emits one failure notification, leaves that device untouched and makes the
cycle return -1, but polling continues with the remaining devices. -/
def pcie_process_devices (cfg : pcie_config_t) :
    List (pcie_device_t × pcie_dev_access) →
    List notification_t × List pcie_device_t × Int
  | [] => ([], [], 0)
  | (dev, acc) :: rest =>
    let r := pcie_poll_device cfg dev acc
    let rr := pcie_process_devices cfg rest
    (r.1 ++ rr.1, r.2 :: rr.2.1, if acc.open_ok then rr.2.2 else -1)

/-- `N` consecutive poll cycles of a single device against a fixed register
environment (the read callback of the external scheduler invoked N times). -/
def pcie_poll_cycles (cfg : pcie_config_t) (acc : pcie_dev_access) :
    pcie_device_t → Nat → List notification_t × pcie_device_t
  | dev, 0 => ([], dev)
  | dev, Nat.succ n =>
    let r := pcie_poll_device cfg dev acc
    let rr := pcie_poll_cycles cfg acc r.2 n
    (r.1 ++ rr.1, rr.2)

/-- Consecutive invocations of `pcie_check_aer` on one device, one per
element of the list of register environments (one per poll cycle). -/
def pcie_check_aer_cycles (cfg : pcie_config_t) (pos : Int) :
    pcie_device_t → List pcie_dev_access → List notification_t × pcie_device_t
  | dev, [] => ([], dev)
  | dev, acc :: rest =>
    let r := pcie_check_aer cfg dev acc pos
    let rr := pcie_check_aer_cycles cfg pos r.2 rest
    (r.1 ++ rr.1, rr.2)

/-! ## Capability Walker -/

/-- The `while (pos)` loop of `pcie_find_cap_exp`.  The C loop is unbounded;
`fuel` is the explicit iteration budget of the shallow embedding and `none`
means the budget ran out while the C loop would still be running. -/
def pcie_find_cap_exp_go (acc : pcie_dev_access) : Nat → Nat → Option Int
  | 0, _ => none
  | Nat.succ fuel, pos =>
    if pos = 0 then some (-1)
    else
      let id := pcie_read8 acc (pos + PCI_CAP_LIST_ID)
      if id = 0xff then some (-1)
      else if id = PCI_CAP_ID_EXP then some (pos : Int)
      else pcie_find_cap_exp_go acc fuel (pcie_read8 acc (pos + PCI_CAP_LIST_NEXT) &&& 252)

/-- `pcie_find_cap_exp`: walk the standard capability list looking for the
PCI Express capability (`& ~3` on a byte is `&&& 252`). -/
def pcie_find_cap_exp (acc : pcie_dev_access) (fuel : Nat) : Option Int :=
  pcie_find_cap_exp_go acc fuel (pcie_read8 acc PCI_CAPABILITY_LIST &&& 252)

/-- The `while (next)` loop of `pcie_find_ecap_aer`; same fuel convention as
`pcie_find_cap_exp_go`. -/
def pcie_find_ecap_aer_go (acc : pcie_dev_access) : Nat → Nat → Option Int
  | 0, _ => none
  | Nat.succ fuel, next =>
    if next = 0 then some (-1)
    else if next ≤ PCIE_ECAP_OFFSET then some (-1)
    else
      let header := pcie_read32 acc (next : Int)
      if header &&& 0xffff = PCI_EXT_CAP_ID_ERR then some (next : Int)
      else pcie_find_ecap_aer_go acc fuel ((header >>> 20) &&& 0xffc)

/-- `pcie_find_ecap_aer`: walk the extended capability list from 0x100
looking for the AER extended capability. -/
def pcie_find_ecap_aer (acc : pcie_dev_access) (fuel : Nat) : Option Int :=
  let header := pcie_read32 acc ((PCIE_ECAP_OFFSET : Nat) : Int)
  let id := header &&& 0xffff
  let next := (header >>> 20) &&& 0xffc
  if id = 0 ∧ next = 0 then some (-1)
  else if id = PCI_EXT_CAP_ID_ERR then some ((PCIE_ECAP_OFFSET : Nat) : Int)
  else pcie_find_ecap_aer_go acc fuel next

/-- `pcie_preprocess_devices`: the startup pruning pass.  Devices that fail
to open or have no PCI Express capability are dropped; for the rest the AER
offset is recorded (`-1` when absent).  On a config space where the C
capability walk would never terminate the C program hangs and never builds a
registry; the embedding's fuel exhaustion is conservatively treated as the
capability being absent. -/
def pcie_preprocess_devices (fuel : Nat)
    (devs : List (pcie_device_t × pcie_dev_access)) :
    List (pcie_device_t × pcie_dev_access) :=
  devs.filterMap fun da =>
    if da.2.open_ok then
      let status := pcie_read16 da.2 PCI_STATUS
      let dev := if status &&& PCI_STATUS_CAP_LIST ≠ 0 then
                   { da.1 with cap_exp := (pcie_find_cap_exp da.2 fuel).getD (-1) }
                 else da.1
      if dev.cap_exp = -1 then none
      else some ({ dev with ecap_aer := (pcie_find_ecap_aer da.2 fuel).getD (-1) }, da.2)
    else none

/-! ## Log Extraction Pipeline -/

/-- One entry of `msg->message_items`: a pattern name and the captured
value (empty string when the optional field did not match). -/
structure message_item where
  name : String
  value : String
deriving DecidableEq, Repr

/-- `p` is a character-list prefix of `s`. -/
def isPre : List Char → List Char → Bool
  | [], _ => true
  | _ :: _, [] => false
  | p :: ps, c :: cs => (c == p) && isPre ps cs

/-- Models `strncmp(s, p, strlen(p)) == 0`: `p` is a prefix of `s`. -/
def strPre (p s : String) : Bool := isPre p.data s.data

/-- The pattern matches the list starting at its head: each entry of `ps`
is a character class that must accept the corresponding character. -/
def matchAt : List (Char → Bool) → List Char → Bool
  | [], _ => true
  | _ :: _, [] => false
  | p :: ps, c :: cs => p c && matchAt ps cs

/-- The pattern matches somewhere inside the list; with the classes below
this models `fnmatch("*PAT*", v, 0) == 0`. -/
def containsPat (ps : List (Char → Bool)) : List Char → Bool
  | [] => matchAt ps []
  | c :: cs => matchAt ps (c :: cs) || containsPat ps cs

/-- The fnmatch character class `[nN]`. -/
def pcie_cls_nN : Char → Bool := fun c => c == 'n' || c == 'N'

/-- The fnmatch character class `[fF]`. -/
def pcie_cls_fF : Char → Bool := fun c => c == 'f' || c == 'F'

/-- The body of the fnmatch pattern `*[nN]on-[fF]atal*`. -/
def pcie_pat_non_fatal : List (Char → Bool) :=
  [pcie_cls_nN, (· == 'o'), (· == 'n'), (· == '-'),
   pcie_cls_fF, (· == 'a'), (· == 't'), (· == 'a'), (· == 'l')]

/-- The body of the fnmatch pattern `*[fF]atal*`. -/
def pcie_pat_fatal : List (Char → Bool) :=
  [pcie_cls_fF, (· == 'a'), (· == 't'), (· == 'a'), (· == 'l')]

/-- `fnmatch("*[nN]on-[fF]atal*", v, 0) == 0`. -/
def pcie_match_non_fatal (v : String) : Bool := containsPat pcie_pat_non_fatal v.data

/-- `fnmatch("*[fF]atal*", v, 0) == 0`. -/
def pcie_match_fatal (v : String) : Bool := containsPat pcie_pat_fatal v.data

/-- The body of the item loop of `pcie_parse_msg`: fold one message item
into the notification being built. -/
def pcie_parse_item (n : notification_t) (item : message_item) : notification_t :=
  if strPre "severity" item.name then
    if pcie_match_non_fatal item.value then { n with type_instance := PCIE_SEV_NOFATAL }
    else if pcie_match_fatal item.value then
      { n with severity := NOTIF_FAILURE, type_instance := PCIE_SEV_FATAL }
    else { n with type_instance := PCIE_SEV_CE }
  else if strPre "device" item.name then { n with plugin_instance := item.value }
  else { n with meta := n.meta ++ [(item.name, item.value)] }

/-- The item loop of `pcie_parse_msg`: iterate over the message items and
break at the first item whose value is the empty string. -/
def pcie_parse_items : notification_t → List message_item → notification_t
  | n, [] => n
  | n, item :: rest =>
    if item.value = "" then n else pcie_parse_items (pcie_parse_item n item) rest

/-- `pcie_parse_msg`: build and dispatch the notification synthesized from
one matched log message (`type` is filled in by
`pcie_do_dispatch_notification`). -/
def pcie_parse_msg (items : List message_item) : notification_t :=
  let n := pcie_parse_items
    ⟨NOTIF_WARNING, "", "", PCIE_ERRORS_PLUGIN, "", "", []⟩ items
  { n with message := "AER " ++ n.type_instance ++ " error reported in log",
           type := PCIE_ERROR }

/-! ## Identification of per-bit events inside the emitted stream

A notification is attributed to a catalog bit through its message text;
the predicates below pick out the set/cleared messages of one entry. -/

/-- The notification is the Device-Status "set" event of entry `err`. -/
def pD_set (err : pcie_error_t) (m : notification_t) : Bool :=
  m.message == pcie_devsta_set_msg err.desc

/-- The notification is the Device-Status "cleared" event of entry `err`. -/
def pD_clr (err : pcie_error_t) (m : notification_t) : Bool :=
  m.message == pcie_devsta_clr_msg err.desc

/-- Any Device-Status event of entry `err`. -/
def pD_any (err : pcie_error_t) (m : notification_t) : Bool :=
  pD_set err m || pD_clr err m

/-- The notification is the AER-correctable "set" event of entry `err`. -/
def pC_set (err : pcie_error_t) (m : notification_t) : Bool :=
  m.message == pcie_cor_set_msg err.desc

/-- The notification is the AER-correctable "cleared" event of entry `err`. -/
def pC_clr (err : pcie_error_t) (m : notification_t) : Bool :=
  m.message == pcie_cor_clr_msg err.desc

/-- Any AER-correctable event of entry `err`. -/
def pC_any (err : pcie_error_t) (m : notification_t) : Bool :=
  pC_set err m || pC_clr err m

/-- The notification is an AER-uncorrectable "set" event of entry `err`
(either fatal or non-fatal variant). -/
def pU_set (err : pcie_error_t) (m : notification_t) : Bool :=
  m.message == pcie_uncor_set_msg PCIE_SEV_FATAL err.desc ||
  m.message == pcie_uncor_set_msg PCIE_SEV_NOFATAL err.desc

/-- The notification is an AER-uncorrectable "cleared" event of entry `err`. -/
def pU_clr (err : pcie_error_t) (m : notification_t) : Bool :=
  m.message == pcie_uncor_clr_msg PCIE_SEV_FATAL err.desc ||
  m.message == pcie_uncor_clr_msg PCIE_SEV_NOFATAL err.desc

/-- Any AER-uncorrectable event of entry `err`. -/
def pU_any (err : pcie_error_t) (m : notification_t) : Bool :=
  pU_set err m || pU_clr err m

/-- Some position below both lengths where the two strings differ. -/
def strDiffAt (p q : String) : Bool :=
  (List.range (min p.data.length q.data.length)).any fun i => p.data[i]? != q.data[i]?

/-! ## String helper lemmas -/

theorem str_append_left_cancel {p a b : String} (h : p ++ a = p ++ b) : a = b := by
  have hd : p.data ++ a.data = p.data ++ b.data := by
    rw [← String.data_append, ← String.data_append, h]
  exact String.ext (List.append_cancel_left hd)

theorem append_ne_of_diffAt {p q : String} (h : strDiffAt p q = true) (a b : String) :
    p ++ a ≠ q ++ b := by
  intro heq
  obtain ⟨i, hi, hne⟩ := List.any_eq_true.mp h
  have hil := List.mem_range.mp hi
  have hp : i < p.data.length := lt_of_lt_of_le hil (min_le_left _ _)
  have hq : i < q.data.length := lt_of_lt_of_le hil (min_le_right _ _)
  have h2 : (p.data ++ a.data)[i]? = (q.data ++ b.data)[i]? := by
    rw [← String.data_append, ← String.data_append, heq]
  rw [List.getElem?_append_left hp, List.getElem?_append_left hq] at h2
  exact bne_iff_ne.mp hne h2

/-- `pcie_uncor_set_msg` with the fatal instance, in prefix-plus-name form. -/
theorem uncor_set_msg_f (d : String) :
    pcie_uncor_set_msg PCIE_SEV_FATAL d = "Uncorrectable(fatal) Error set: " ++ d :=
  congrArg (· ++ d) (by decide)

/-- `pcie_uncor_set_msg` with the non-fatal instance, in prefix-plus-name form. -/
theorem uncor_set_msg_n (d : String) :
    pcie_uncor_set_msg PCIE_SEV_NOFATAL d = "Uncorrectable(non_fatal) Error set: " ++ d :=
  congrArg (· ++ d) (by decide)

/-- `pcie_uncor_clr_msg` with the fatal instance, in prefix-plus-name form. -/
theorem uncor_clr_msg_f (d : String) :
    pcie_uncor_clr_msg PCIE_SEV_FATAL d = "Uncorrectable(fatal) Error cleared: " ++ d :=
  congrArg (· ++ d) (by decide)

/-- `pcie_uncor_clr_msg` with the non-fatal instance, in prefix-plus-name form. -/
theorem uncor_clr_msg_n (d : String) :
    pcie_uncor_clr_msg PCIE_SEV_NOFATAL d = "Uncorrectable(non_fatal) Error cleared: " ++ d :=
  congrArg (· ++ d) (by decide)

/-! ## Catalog sanity facts -/

theorem ues_nodup : pcie_aer_ues.Nodup := by decide

theorem ces_nodup : pcie_aer_ces.Nodup := by decide

theorem base_nodup : pcie_base_errors.Nodup := by decide

theorem ues_desc_inj :
    ∀ a ∈ pcie_aer_ues, ∀ b ∈ pcie_aer_ues, a.desc = b.desc → a = b := by decide

theorem ces_desc_inj :
    ∀ a ∈ pcie_aer_ces, ∀ b ∈ pcie_aer_ces, a.desc = b.desc → a = b := by decide

theorem base_desc_inj :
    ∀ a ∈ pcie_base_errors, ∀ b ∈ pcie_base_errors, a.desc = b.desc → a = b := by decide

/-! ## Generic helper lemmas about filtered dispatch output -/

theorem filterMap_filter_nil {α : Type} (g : α → Option notification_t)
    (p : notification_t → Bool) (L : List α)
    (h : ∀ a ∈ L, ∀ m, g a = some m → p m = false) :
    (L.filterMap g).filter p = [] := by
  induction L with
  | nil => rfl
  | cons x xs ih =>
    rw [List.filterMap_cons]
    cases hx : g x with
    | none => exact ih fun a ha => h a (List.mem_cons_of_mem _ ha)
    | some m =>
      rw [List.filter_cons_of_neg]
      · exact ih fun a ha => h a (List.mem_cons_of_mem _ ha)
      · simp [h x (List.mem_cons_self _ _) m hx]

theorem filterMap_filter_singleton {α : Type} [DecidableEq α]
    (g : α → Option notification_t) (p : notification_t → Bool) (L : List α)
    (e : α) (n : notification_t)
    (hmem : e ∈ L) (hcount : L.count e = 1)
    (hother : ∀ a ∈ L, a ≠ e → ∀ m, g a = some m → p m = false)
    (he : g e = some n) (hn : p n = true) :
    (L.filterMap g).filter p = [n] := by
  induction L with
  | nil => cases hmem
  | cons x xs ih =>
    by_cases hx : x = e
    · subst hx
      rw [List.count_cons_self] at hcount
      have hxs : x ∉ xs := by
        rw [← List.count_eq_zero]
        omega
      rw [List.filterMap_cons, he, List.filter_cons_of_pos hn]
      congr 1
      exact filterMap_filter_nil g p xs fun a ha =>
        hother a (List.mem_cons_of_mem _ ha) (fun hh => hxs (hh ▸ ha))
    · have hmem' : e ∈ xs := by
        cases List.mem_cons.mp hmem with
        | inl hh => exact absurd hh.symm hx
        | inr hh => exact hh
      have hcount' : xs.count e = 1 := by
        rwa [List.count_cons_of_ne (fun hh => hx hh.symm)] at hcount
      have ihx := ih hmem' hcount'
        (fun a ha => hother a (List.mem_cons_of_mem _ ha))
      rw [List.filterMap_cons]
      cases hgx : g x with
      | none => exact ihx
      | some m =>
        rw [List.filter_cons_of_neg]
        · exact ihx
        · simp [hother x (List.mem_cons_self _ _) hx m hgx]

/-! ## Shape lemmas: every emitted notification is one of finitely many forms -/

theorem pcie_cor_entry_msg (cfg : pcie_config_t) (dev : pcie_device_t)
    (errors masked : Nat) (err : pcie_error_t) (m : notification_t)
    (h : pcie_cor_entry cfg dev errors masked err = some m) :
    m.message = pcie_cor_set_msg err.desc ∨ m.message = pcie_cor_clr_msg err.desc := by
  unfold pcie_cor_entry at h
  split_ifs at h <;> (try simp at h) <;> (try subst h) <;> simp

theorem pcie_uncor_entry_msg (cfg : pcie_config_t) (dev : pcie_device_t)
    (errors masked severity : Nat) (err : pcie_error_t) (m : notification_t)
    (h : pcie_uncor_entry cfg dev errors masked severity err = some m) :
    m.message = pcie_uncor_set_msg PCIE_SEV_FATAL err.desc ∨
    m.message = pcie_uncor_set_msg PCIE_SEV_NOFATAL err.desc ∨
    m.message = pcie_uncor_clr_msg PCIE_SEV_FATAL err.desc ∨
    m.message = pcie_uncor_clr_msg PCIE_SEV_NOFATAL err.desc := by
  unfold pcie_uncor_entry at h
  split_ifs at h <;> (try simp at h) <;> (try subst h) <;> simp

theorem pcie_devsta_entry_msg (cfg : pcie_config_t) (dev : pcie_device_t)
    (new_status : Nat) (err : pcie_error_t) (m : notification_t)
    (h : pcie_devsta_entry cfg dev new_status err = some m) :
    m.message = pcie_devsta_set_msg err.desc ∨ m.message = pcie_devsta_clr_msg err.desc := by
  unfold pcie_devsta_entry at h
  split_ifs at h <;> (try simp at h) <;> (try subst h) <;> simp

theorem pcie_cor_entry_ti (cfg : pcie_config_t) (dev : pcie_device_t)
    (errors masked : Nat) (err : pcie_error_t) (m : notification_t)
    (h : pcie_cor_entry cfg dev errors masked err = some m) :
    m.type_instance = PCIE_SEV_CE := by
  unfold pcie_cor_entry at h
  split_ifs at h <;> (try simp at h) <;> (try subst h) <;> simp

theorem pcie_uncor_entry_ti (cfg : pcie_config_t) (dev : pcie_device_t)
    (errors masked severity : Nat) (err : pcie_error_t) (m : notification_t)
    (h : pcie_uncor_entry cfg dev errors masked severity err = some m) :
    m.type_instance = PCIE_SEV_FATAL ∨ m.type_instance = PCIE_SEV_NOFATAL := by
  unfold pcie_uncor_entry at h
  split_ifs at h <;> (try simp at h) <;> (try subst h) <;> simp


/-! ## No entry produces another entry's (or another register's) events -/

theorem uncor_entry_pU_any_false (cfg : pcie_config_t) (dev : pcie_device_t)
    (errors masked severity : Nat) (a err : pcie_error_t) (m : notification_t)
    (hdesc : a.desc ≠ err.desc)
    (hm : pcie_uncor_entry cfg dev errors masked severity a = some m) :
    pU_any err m = false := by
  rcases pcie_uncor_entry_msg _ _ _ _ _ _ _ hm with h | h | h | h <;>
    (simp only [pU_any, pU_set, pU_clr, h, uncor_set_msg_f, uncor_set_msg_n,
       uncor_clr_msg_f, uncor_clr_msg_n, Bool.or_eq_false_iff, beq_eq_false_iff_ne, ne_eq]
     refine ⟨⟨?_, ?_⟩, ?_, ?_⟩ <;>
       first
         | exact append_ne_of_diffAt (by decide) _ _
         | exact fun hh => hdesc (str_append_left_cancel hh))

theorem uncor_entry_pC_any_false (cfg : pcie_config_t) (dev : pcie_device_t)
    (errors masked severity : Nat) (a err : pcie_error_t) (m : notification_t)
    (hm : pcie_uncor_entry cfg dev errors masked severity a = some m) :
    pC_any err m = false := by
  rcases pcie_uncor_entry_msg _ _ _ _ _ _ _ hm with h | h | h | h <;>
    (simp only [pC_any, pC_set, pC_clr, h, uncor_set_msg_f, uncor_set_msg_n,
       uncor_clr_msg_f, uncor_clr_msg_n, pcie_cor_set_msg, pcie_cor_clr_msg,
       Bool.or_eq_false_iff, beq_eq_false_iff_ne, ne_eq]
     exact ⟨append_ne_of_diffAt (by decide) _ _, append_ne_of_diffAt (by decide) _ _⟩)

theorem uncor_entry_pD_any_false (cfg : pcie_config_t) (dev : pcie_device_t)
    (errors masked severity : Nat) (a err : pcie_error_t) (m : notification_t)
    (hm : pcie_uncor_entry cfg dev errors masked severity a = some m) :
    pD_any err m = false := by
  rcases pcie_uncor_entry_msg _ _ _ _ _ _ _ hm with h | h | h | h <;>
    (simp only [pD_any, pD_set, pD_clr, h, uncor_set_msg_f, uncor_set_msg_n,
       uncor_clr_msg_f, uncor_clr_msg_n, pcie_devsta_set_msg, pcie_devsta_clr_msg,
       Bool.or_eq_false_iff, beq_eq_false_iff_ne, ne_eq]
     exact ⟨append_ne_of_diffAt (by decide) _ _, append_ne_of_diffAt (by decide) _ _⟩)

theorem cor_entry_pC_any_false (cfg : pcie_config_t) (dev : pcie_device_t)
    (errors masked : Nat) (a err : pcie_error_t) (m : notification_t)
    (hdesc : a.desc ≠ err.desc)
    (hm : pcie_cor_entry cfg dev errors masked a = some m) :
    pC_any err m = false := by
  rcases pcie_cor_entry_msg _ _ _ _ _ _ hm with h | h <;>
    (simp only [pC_any, pC_set, pC_clr, h, pcie_cor_set_msg, pcie_cor_clr_msg,
       Bool.or_eq_false_iff, beq_eq_false_iff_ne, ne_eq]
     refine ⟨?_, ?_⟩ <;>
       first
         | exact append_ne_of_diffAt (by decide) _ _
         | exact fun hh => hdesc (str_append_left_cancel hh))

theorem cor_entry_pU_any_false (cfg : pcie_config_t) (dev : pcie_device_t)
    (errors masked : Nat) (a err : pcie_error_t) (m : notification_t)
    (hm : pcie_cor_entry cfg dev errors masked a = some m) :
    pU_any err m = false := by
  rcases pcie_cor_entry_msg _ _ _ _ _ _ hm with h | h <;>
    (simp only [pU_any, pU_set, pU_clr, h, uncor_set_msg_f, uncor_set_msg_n,
       uncor_clr_msg_f, uncor_clr_msg_n, pcie_cor_set_msg, pcie_cor_clr_msg,
       Bool.or_eq_false_iff, beq_eq_false_iff_ne, ne_eq]
     exact ⟨⟨append_ne_of_diffAt (by decide) _ _, append_ne_of_diffAt (by decide) _ _⟩,
            append_ne_of_diffAt (by decide) _ _, append_ne_of_diffAt (by decide) _ _⟩)

theorem cor_entry_pD_any_false (cfg : pcie_config_t) (dev : pcie_device_t)
    (errors masked : Nat) (a err : pcie_error_t) (m : notification_t)
    (hm : pcie_cor_entry cfg dev errors masked a = some m) :
    pD_any err m = false := by
  rcases pcie_cor_entry_msg _ _ _ _ _ _ hm with h | h <;>
    (simp only [pD_any, pD_set, pD_clr, h, pcie_devsta_set_msg, pcie_devsta_clr_msg,
       pcie_cor_set_msg, pcie_cor_clr_msg,
       Bool.or_eq_false_iff, beq_eq_false_iff_ne, ne_eq]
     exact ⟨append_ne_of_diffAt (by decide) _ _, append_ne_of_diffAt (by decide) _ _⟩)

theorem devsta_entry_pD_any_false (cfg : pcie_config_t) (dev : pcie_device_t)
    (new_status : Nat) (a err : pcie_error_t) (m : notification_t)
    (hdesc : a.desc ≠ err.desc)
    (hm : pcie_devsta_entry cfg dev new_status a = some m) :
    pD_any err m = false := by
  rcases pcie_devsta_entry_msg _ _ _ _ _ hm with h | h <;>
    (simp only [pD_any, pD_set, pD_clr, h, pcie_devsta_set_msg, pcie_devsta_clr_msg,
       Bool.or_eq_false_iff, beq_eq_false_iff_ne, ne_eq]
     refine ⟨?_, ?_⟩ <;>
       first
         | exact append_ne_of_diffAt (by decide) _ _
         | exact fun hh => hdesc (str_append_left_cancel hh))

theorem devsta_entry_pU_any_false (cfg : pcie_config_t) (dev : pcie_device_t)
    (new_status : Nat) (a err : pcie_error_t) (m : notification_t)
    (hm : pcie_devsta_entry cfg dev new_status a = some m) :
    pU_any err m = false := by
  rcases pcie_devsta_entry_msg _ _ _ _ _ hm with h | h <;>
    (simp only [pU_any, pU_set, pU_clr, h, uncor_set_msg_f, uncor_set_msg_n,
       uncor_clr_msg_f, uncor_clr_msg_n, pcie_devsta_set_msg, pcie_devsta_clr_msg,
       Bool.or_eq_false_iff, beq_eq_false_iff_ne, ne_eq]
     exact ⟨⟨append_ne_of_diffAt (by decide) _ _, append_ne_of_diffAt (by decide) _ _⟩,
            append_ne_of_diffAt (by decide) _ _, append_ne_of_diffAt (by decide) _ _⟩)

theorem devsta_entry_pC_any_false (cfg : pcie_config_t) (dev : pcie_device_t)
    (new_status : Nat) (a err : pcie_error_t) (m : notification_t)
    (hm : pcie_devsta_entry cfg dev new_status a = some m) :
    pC_any err m = false := by
  rcases pcie_devsta_entry_msg _ _ _ _ _ hm with h | h <;>
    (simp only [pC_any, pC_set, pC_clr, h, pcie_devsta_set_msg, pcie_devsta_clr_msg,
       pcie_cor_set_msg, pcie_cor_clr_msg,
       Bool.or_eq_false_iff, beq_eq_false_iff_ne, ne_eq]
     exact ⟨append_ne_of_diffAt (by decide) _ _, append_ne_of_diffAt (by decide) _ _⟩)

/-! ## From "no event at all" to "no set / no cleared event" -/

theorem pU_any_false_set {err : pcie_error_t} {m : notification_t}
    (h : pU_any err m = false) : pU_set err m = false := by
  unfold pU_any at h
  exact (Bool.or_eq_false_iff.mp h).1

theorem pU_any_false_clr {err : pcie_error_t} {m : notification_t}
    (h : pU_any err m = false) : pU_clr err m = false := by
  unfold pU_any at h
  exact (Bool.or_eq_false_iff.mp h).2

theorem pC_any_false_set {err : pcie_error_t} {m : notification_t}
    (h : pC_any err m = false) : pC_set err m = false := by
  unfold pC_any at h
  exact (Bool.or_eq_false_iff.mp h).1

theorem pC_any_false_clr {err : pcie_error_t} {m : notification_t}
    (h : pC_any err m = false) : pC_clr err m = false := by
  unfold pC_any at h
  exact (Bool.or_eq_false_iff.mp h).2

theorem pD_any_false_set {err : pcie_error_t} {m : notification_t}
    (h : pD_any err m = false) : pD_set err m = false := by
  unfold pD_any at h
  exact (Bool.or_eq_false_iff.mp h).1

theorem pD_any_false_clr {err : pcie_error_t} {m : notification_t}
    (h : pD_any err m = false) : pD_clr err m = false := by
  unfold pD_any at h
  exact (Bool.or_eq_false_iff.mp h).2


/-! ## Singleton lemmas: one transition yields exactly one event -/

theorem uncor_set_single (cfg : pcie_config_t) (dev : pcie_device_t)
    (errors masked severity : Nat) (err : pcie_error_t)
    (hmem : err ∈ pcie_aer_ues)
    (hmask : err.mask &&& masked = 0)
    (hset : err.mask &&& errors ≠ 0)
    (hskip : ¬(cfg.persistent = false ∧ err.mask &&& dev.uncorrectable_errors ≠ 0)) :
    (pcie_dispatch_uncorrectable_errors cfg dev errors masked severity).filter (pU_set err) =
      [⟨if severity &&& err.mask ≠ 0 then NOTIF_FAILURE else NOTIF_WARNING, PCIE_ERROR,
        if severity &&& err.mask ≠ 0 then PCIE_SEV_FATAL else PCIE_SEV_NOFATAL,
        PCIE_ERRORS_PLUGIN, pcie_dev_instance dev,
        pcie_uncor_set_msg
          (if severity &&& err.mask ≠ 0 then PCIE_SEV_FATAL else PCIE_SEV_NOFATAL) err.desc,
        []⟩] := by
  refine filterMap_filter_singleton _ _ _ err _ hmem
    (List.count_eq_one_of_mem ues_nodup hmem) ?_ ?_ ?_
  · intro a ha hne m hm
    exact pU_any_false_set (uncor_entry_pU_any_false _ _ _ _ _ _ _ _
      (fun hd => hne (ues_desc_inj a ha err hmem hd)) hm)
  · simp [pcie_uncor_entry, hmask, hset, hskip]
  · by_cases hs : severity &&& err.mask ≠ 0 <;> simp [pU_set, hs]

theorem uncor_clr_single (cfg : pcie_config_t) (dev : pcie_device_t)
    (errors masked severity : Nat) (err : pcie_error_t)
    (hmem : err ∈ pcie_aer_ues)
    (hmask : err.mask &&& masked = 0)
    (hclr : err.mask &&& errors = 0)
    (hold : err.mask &&& dev.uncorrectable_errors ≠ 0) :
    (pcie_dispatch_uncorrectable_errors cfg dev errors masked severity).filter (pU_clr err) =
      [⟨NOTIF_OKAY, PCIE_ERROR,
        if severity &&& err.mask ≠ 0 then PCIE_SEV_FATAL else PCIE_SEV_NOFATAL,
        PCIE_ERRORS_PLUGIN, pcie_dev_instance dev,
        pcie_uncor_clr_msg
          (if severity &&& err.mask ≠ 0 then PCIE_SEV_FATAL else PCIE_SEV_NOFATAL) err.desc,
        []⟩] := by
  refine filterMap_filter_singleton _ _ _ err _ hmem
    (List.count_eq_one_of_mem ues_nodup hmem) ?_ ?_ ?_
  · intro a ha hne m hm
    exact pU_any_false_clr (uncor_entry_pU_any_false _ _ _ _ _ _ _ _
      (fun hd => hne (ues_desc_inj a ha err hmem hd)) hm)
  · simp [pcie_uncor_entry, hmask, hclr, hold]
  · by_cases hs : severity &&& err.mask ≠ 0 <;> simp [pU_clr, hs]

theorem cor_set_single (cfg : pcie_config_t) (dev : pcie_device_t)
    (errors masked : Nat) (err : pcie_error_t)
    (hmem : err ∈ pcie_aer_ces)
    (hmask : err.mask &&& masked = 0)
    (hset : err.mask &&& errors ≠ 0)
    (hskip : ¬(cfg.persistent = false ∧ err.mask &&& dev.correctable_errors ≠ 0)) :
    (pcie_dispatch_correctable_errors cfg dev errors masked).filter (pC_set err) =
      [⟨NOTIF_WARNING, PCIE_ERROR, PCIE_SEV_CE, PCIE_ERRORS_PLUGIN,
        pcie_dev_instance dev, pcie_cor_set_msg err.desc, []⟩] := by
  refine filterMap_filter_singleton _ _ _ err _ hmem
    (List.count_eq_one_of_mem ces_nodup hmem) ?_ ?_ ?_
  · intro a ha hne m hm
    exact pC_any_false_set (cor_entry_pC_any_false _ _ _ _ _ _ _
      (fun hd => hne (ces_desc_inj a ha err hmem hd)) hm)
  · simp [pcie_cor_entry, hmask, hset, hskip]
  · simp [pC_set]

theorem cor_clr_single (cfg : pcie_config_t) (dev : pcie_device_t)
    (errors masked : Nat) (err : pcie_error_t)
    (hmem : err ∈ pcie_aer_ces)
    (hmask : err.mask &&& masked = 0)
    (hclr : err.mask &&& errors = 0)
    (hold : err.mask &&& dev.correctable_errors ≠ 0) :
    (pcie_dispatch_correctable_errors cfg dev errors masked).filter (pC_clr err) =
      [⟨NOTIF_OKAY, PCIE_ERROR, PCIE_SEV_CE, PCIE_ERRORS_PLUGIN,
        pcie_dev_instance dev, pcie_cor_clr_msg err.desc, []⟩] := by
  refine filterMap_filter_singleton _ _ _ err _ hmem
    (List.count_eq_one_of_mem ces_nodup hmem) ?_ ?_ ?_
  · intro a ha hne m hm
    exact pC_any_false_clr (cor_entry_pC_any_false _ _ _ _ _ _ _
      (fun hd => hne (ces_desc_inj a ha err hmem hd)) hm)
  · simp [pcie_cor_entry, hmask, hclr, hold]
  · simp [pC_clr]

theorem devsta_set_single (cfg : pcie_config_t) (dev : pcie_device_t)
    (new_status : Nat) (err : pcie_error_t)
    (hmem : err ∈ pcie_base_errors)
    (hset : err.mask &&& new_status ≠ 0)
    (hskip : ¬(cfg.persistent = false ∧ err.mask &&& dev.device_status ≠ 0)) :
    (pcie_base_errors.filterMap (pcie_devsta_entry cfg dev new_status)).filter (pD_set err) =
      [⟨if err.mask = PCI_EXP_DEVSTA_FED then NOTIF_FAILURE else NOTIF_WARNING,
        PCIE_ERROR,
        if err.mask = PCI_EXP_DEVSTA_FED then PCIE_SEV_FATAL
        else if err.mask = PCI_EXP_DEVSTA_CED then PCIE_SEV_CE else PCIE_SEV_NOFATAL,
        PCIE_ERRORS_PLUGIN, pcie_dev_instance dev, pcie_devsta_set_msg err.desc, []⟩] := by
  refine filterMap_filter_singleton _ _ _ err _ hmem
    (List.count_eq_one_of_mem base_nodup hmem) ?_ ?_ ?_
  · intro a ha hne m hm
    exact pD_any_false_set (devsta_entry_pD_any_false _ _ _ _ _ _
      (fun hd => hne (base_desc_inj a ha err hmem hd)) hm)
  · simp [pcie_devsta_entry, hset, hskip]
  · simp [pD_set]

theorem devsta_clr_single (cfg : pcie_config_t) (dev : pcie_device_t)
    (new_status : Nat) (err : pcie_error_t)
    (hmem : err ∈ pcie_base_errors)
    (hclr : err.mask &&& new_status = 0)
    (hold : err.mask &&& dev.device_status ≠ 0) :
    (pcie_base_errors.filterMap (pcie_devsta_entry cfg dev new_status)).filter (pD_clr err) =
      [⟨NOTIF_OKAY, PCIE_ERROR,
        if err.mask = PCI_EXP_DEVSTA_FED then PCIE_SEV_FATAL
        else if err.mask = PCI_EXP_DEVSTA_CED then PCIE_SEV_CE else PCIE_SEV_NOFATAL,
        PCIE_ERRORS_PLUGIN, pcie_dev_instance dev, pcie_devsta_clr_msg err.desc, []⟩] := by
  refine filterMap_filter_singleton _ _ _ err _ hmem
    (List.count_eq_one_of_mem base_nodup hmem) ?_ ?_ ?_
  · intro a ha hne m hm
    exact pD_any_false_clr (devsta_entry_pD_any_false _ _ _ _ _ _
      (fun hd => hne (base_desc_inj a ha err hmem hd)) hm)
  · simp [pcie_devsta_entry, hclr, hold]
  · simp [pD_clr]

/-! ## Nil lemmas: masked bits and cross-register attribution -/

theorem uncor_masked_nil (cfg : pcie_config_t) (dev : pcie_device_t)
    (errors masked severity : Nat) (err : pcie_error_t)
    (hmem : err ∈ pcie_aer_ues)
    (hnm : cfg.notif_masked = false)
    (hmask : err.mask &&& masked ≠ 0) :
    (pcie_dispatch_uncorrectable_errors cfg dev errors masked severity).filter (pU_any err) = [] := by
  refine filterMap_filter_nil _ _ _ ?_
  intro a ha m hm
  by_cases hae : a = err
  · subst hae
    simp [pcie_uncor_entry, hnm, hmask] at hm
  · exact uncor_entry_pU_any_false _ _ _ _ _ _ _ _
      (fun hd => hae (ues_desc_inj a ha err hmem hd)) hm

theorem cor_masked_nil (cfg : pcie_config_t) (dev : pcie_device_t)
    (errors masked : Nat) (err : pcie_error_t)
    (hmem : err ∈ pcie_aer_ces)
    (hnm : cfg.notif_masked = false)
    (hmask : err.mask &&& masked ≠ 0) :
    (pcie_dispatch_correctable_errors cfg dev errors masked).filter (pC_any err) = [] := by
  refine filterMap_filter_nil _ _ _ ?_
  intro a ha m hm
  by_cases hae : a = err
  · subst hae
    simp [pcie_cor_entry, hnm, hmask] at hm
  · exact cor_entry_pC_any_false _ _ _ _ _ _ _
      (fun hd => hae (ces_desc_inj a ha err hmem hd)) hm

theorem uncor_dispatch_pC_any_nil (cfg : pcie_config_t) (dev : pcie_device_t)
    (errors masked severity : Nat) (err : pcie_error_t) :
    (pcie_dispatch_uncorrectable_errors cfg dev errors masked severity).filter (pC_any err) = [] :=
  filterMap_filter_nil _ _ _
    (fun _ _ m hm => uncor_entry_pC_any_false _ _ _ _ _ _ _ m hm)

theorem uncor_dispatch_pD_any_nil (cfg : pcie_config_t) (dev : pcie_device_t)
    (errors masked severity : Nat) (err : pcie_error_t) :
    (pcie_dispatch_uncorrectable_errors cfg dev errors masked severity).filter (pD_any err) = [] :=
  filterMap_filter_nil _ _ _
    (fun _ _ m hm => uncor_entry_pD_any_false _ _ _ _ _ _ _ m hm)

theorem cor_dispatch_pU_any_nil (cfg : pcie_config_t) (dev : pcie_device_t)
    (errors masked : Nat) (err : pcie_error_t) :
    (pcie_dispatch_correctable_errors cfg dev errors masked).filter (pU_any err) = [] :=
  filterMap_filter_nil _ _ _
    (fun _ _ m hm => cor_entry_pU_any_false _ _ _ _ _ _ m hm)

theorem cor_dispatch_pD_any_nil (cfg : pcie_config_t) (dev : pcie_device_t)
    (errors masked : Nat) (err : pcie_error_t) :
    (pcie_dispatch_correctable_errors cfg dev errors masked).filter (pD_any err) = [] :=
  filterMap_filter_nil _ _ _
    (fun _ _ m hm => cor_entry_pD_any_false _ _ _ _ _ _ m hm)

theorem devsta_filterMap_pU_any_nil (cfg : pcie_config_t) (dev : pcie_device_t)
    (new_status : Nat) (err : pcie_error_t) :
    (pcie_base_errors.filterMap (pcie_devsta_entry cfg dev new_status)).filter (pU_any err) = [] :=
  filterMap_filter_nil _ _ _
    (fun _ _ m hm => devsta_entry_pU_any_false _ _ _ _ _ m hm)

theorem devsta_filterMap_pC_any_nil (cfg : pcie_config_t) (dev : pcie_device_t)
    (new_status : Nat) (err : pcie_error_t) :
    (pcie_base_errors.filterMap (pcie_devsta_entry cfg dev new_status)).filter (pC_any err) = [] :=
  filterMap_filter_nil _ _ _
    (fun _ _ m hm => devsta_entry_pC_any_false _ _ _ _ _ m hm)


/-! ## Small bit-arithmetic helpers -/

theorem land_ne_zero_right {a b : Nat} (h : a &&& b ≠ 0) : b ≠ 0 :=
  fun hb => h (by simp [hb])

theorem ne_of_bit_diff {mask x y : Nat} (hx : mask &&& x ≠ 0) (hy : mask &&& y = 0) :
    x ≠ y := by
  intro h
  rw [h] at hx
  exact hx hy

/-! ## Claim theorems -/

/-- C1: for every device and every bit in one of the three fixed error
catalogs, a clear-to-set transition of that bit (the bit being unmasked for
the AER catalogs) emits exactly one "set" event whose severity matches the
bit's classification (the fatal Device Status bit and severity-marked AER
uncorrectable bits give `NOTIF_FAILURE`; correctable and non-fatal bits give
`NOTIF_WARNING`), and a set-to-clear transition emits exactly one "cleared"
event with severity `NOTIF_OKAY`. -/
theorem claim_C1 :
    (∀ cfg dev acc pos, ∀ err ∈ pcie_base_errors,
      err.mask &&& (pcie_read16 acc (pos + PCI_EXP_DEVSTA) &&& 0xf) ≠ 0 →
      err.mask &&& dev.device_status = 0 →
      (pcie_check_dev_status cfg dev acc pos).1.filter (pD_set err) =
        [⟨if err.mask = PCI_EXP_DEVSTA_FED then NOTIF_FAILURE else NOTIF_WARNING,
          PCIE_ERROR,
          if err.mask = PCI_EXP_DEVSTA_FED then PCIE_SEV_FATAL
          else if err.mask = PCI_EXP_DEVSTA_CED then PCIE_SEV_CE else PCIE_SEV_NOFATAL,
          PCIE_ERRORS_PLUGIN, pcie_dev_instance dev, pcie_devsta_set_msg err.desc, []⟩]) ∧
    (∀ cfg dev acc pos, ∀ err ∈ pcie_base_errors,
      err.mask &&& (pcie_read16 acc (pos + PCI_EXP_DEVSTA) &&& 0xf) = 0 →
      err.mask &&& dev.device_status ≠ 0 →
      (pcie_check_dev_status cfg dev acc pos).1.filter (pD_clr err) =
        [⟨NOTIF_OKAY, PCIE_ERROR,
          if err.mask = PCI_EXP_DEVSTA_FED then PCIE_SEV_FATAL
          else if err.mask = PCI_EXP_DEVSTA_CED then PCIE_SEV_CE else PCIE_SEV_NOFATAL,
          PCIE_ERRORS_PLUGIN, pcie_dev_instance dev, pcie_devsta_clr_msg err.desc, []⟩]) ∧
    (∀ cfg dev errors masked severity, ∀ err ∈ pcie_aer_ues,
      err.mask &&& masked = 0 →
      err.mask &&& errors ≠ 0 →
      err.mask &&& dev.uncorrectable_errors = 0 →
      (pcie_dispatch_uncorrectable_errors cfg dev errors masked severity).filter (pU_set err) =
        [⟨if severity &&& err.mask ≠ 0 then NOTIF_FAILURE else NOTIF_WARNING, PCIE_ERROR,
          if severity &&& err.mask ≠ 0 then PCIE_SEV_FATAL else PCIE_SEV_NOFATAL,
          PCIE_ERRORS_PLUGIN, pcie_dev_instance dev,
          pcie_uncor_set_msg
            (if severity &&& err.mask ≠ 0 then PCIE_SEV_FATAL else PCIE_SEV_NOFATAL) err.desc,
          []⟩]) ∧
    (∀ cfg dev errors masked severity, ∀ err ∈ pcie_aer_ues,
      err.mask &&& masked = 0 →
      err.mask &&& errors = 0 →
      err.mask &&& dev.uncorrectable_errors ≠ 0 →
      (pcie_dispatch_uncorrectable_errors cfg dev errors masked severity).filter (pU_clr err) =
        [⟨NOTIF_OKAY, PCIE_ERROR,
          if severity &&& err.mask ≠ 0 then PCIE_SEV_FATAL else PCIE_SEV_NOFATAL,
          PCIE_ERRORS_PLUGIN, pcie_dev_instance dev,
          pcie_uncor_clr_msg
            (if severity &&& err.mask ≠ 0 then PCIE_SEV_FATAL else PCIE_SEV_NOFATAL) err.desc,
          []⟩]) ∧
    (∀ cfg dev errors masked, ∀ err ∈ pcie_aer_ces,
      err.mask &&& masked = 0 →
      err.mask &&& errors ≠ 0 →
      err.mask &&& dev.correctable_errors = 0 →
      (pcie_dispatch_correctable_errors cfg dev errors masked).filter (pC_set err) =
        [⟨NOTIF_WARNING, PCIE_ERROR, PCIE_SEV_CE, PCIE_ERRORS_PLUGIN,
          pcie_dev_instance dev, pcie_cor_set_msg err.desc, []⟩]) ∧
    (∀ cfg dev errors masked, ∀ err ∈ pcie_aer_ces,
      err.mask &&& masked = 0 →
      err.mask &&& errors = 0 →
      err.mask &&& dev.correctable_errors ≠ 0 →
      (pcie_dispatch_correctable_errors cfg dev errors masked).filter (pC_clr err) =
        [⟨NOTIF_OKAY, PCIE_ERROR, PCIE_SEV_CE, PCIE_ERRORS_PLUGIN,
          pcie_dev_instance dev, pcie_cor_clr_msg err.desc, []⟩]) := by
  refine ⟨?_, ?_, ?_, ?_, ?_, ?_⟩
  · intro cfg dev acc pos err hmem hset hold
    have hne : pcie_read16 acc (pos + PCI_EXP_DEVSTA) &&& 0xf ≠ dev.device_status :=
      ne_of_bit_diff hset hold
    simp only [pcie_check_dev_status]
    rw [if_neg fun hg => hne hg.2]
    exact devsta_set_single cfg dev _ err hmem hset fun hsk => hsk.2 hold
  · intro cfg dev acc pos err hmem hclr hold
    have hne : pcie_read16 acc (pos + PCI_EXP_DEVSTA) &&& 0xf ≠ dev.device_status :=
      (ne_of_bit_diff hold hclr).symm
    simp only [pcie_check_dev_status]
    rw [if_neg fun hg => hne hg.2]
    exact devsta_clr_single cfg dev _ err hmem hclr hold
  · intro cfg dev errors masked severity err hmem hmask hset hold
    exact uncor_set_single cfg dev errors masked severity err hmem hmask hset
      fun hsk => hsk.2 hold
  · intro cfg dev errors masked severity err hmem hmask hclr hold
    exact uncor_clr_single cfg dev errors masked severity err hmem hmask hclr hold
  · intro cfg dev errors masked err hmem hmask hset hold
    exact cor_set_single cfg dev errors masked err hmem hmask hset fun hsk => hsk.2 hold
  · intro cfg dev errors masked err hmem hmask hclr hold
    exact cor_clr_single cfg dev errors masked err hmem hmask hclr hold


/-! ## Concrete fixtures used by witnesses and counterexamples -/

/-- Default configuration: masked reporting off, persistent off. -/
def cfg_w : pcie_config_t := ⟨false, false⟩

/-- Persistent-mode configuration. -/
def cfg_p : pcie_config_t := ⟨false, true⟩

/-- A device with an all-clear snapshot baseline. -/
def dev_w1 : pcie_device_t := ⟨0, 1, 2, 3, 64, 256, 0, 0, 0⟩

/-- A device whose baseline has URD, Bad TLP and Surprise Down latched. -/
def dev_w2 : pcie_device_t := ⟨0, 1, 2, 3, 64, 256, 8, 0x40, 0x20⟩

/-- Register environment: Device Status reads 4 (Fatal Error), all else 0. -/
def acc_w1 : pcie_dev_access :=
  ⟨true, fun _ => some 0, fun p => if p = 74 then some 4 else some 0, fun _ => some 0⟩

/-- Register environment: every register reads 0. -/
def acc_w0 : pcie_dev_access :=
  ⟨true, fun _ => some 0, fun _ => some 0, fun _ => some 0⟩

theorem claim_C1_witness :
    (pcie_check_dev_status cfg_w dev_w1 acc_w1 64).1.filter (pD_set ⟨4, "Fatal Error"⟩) =
      [⟨NOTIF_FAILURE, PCIE_ERROR, PCIE_SEV_FATAL, PCIE_ERRORS_PLUGIN,
        pcie_dev_instance dev_w1, pcie_devsta_set_msg "Fatal Error", []⟩] ∧
    (pcie_check_dev_status cfg_w dev_w2 acc_w0 64).1.filter (pD_clr ⟨8, "Unsupported Request"⟩) =
      [⟨NOTIF_OKAY, PCIE_ERROR, PCIE_SEV_NOFATAL, PCIE_ERRORS_PLUGIN,
        pcie_dev_instance dev_w2, pcie_devsta_clr_msg "Unsupported Request", []⟩] ∧
    (pcie_dispatch_uncorrectable_errors cfg_w dev_w1 0x10 0 0x10).filter
        (pU_set ⟨0x10, "Data Link Protocol"⟩) =
      [⟨NOTIF_FAILURE, PCIE_ERROR, PCIE_SEV_FATAL, PCIE_ERRORS_PLUGIN,
        pcie_dev_instance dev_w1, pcie_uncor_set_msg PCIE_SEV_FATAL "Data Link Protocol", []⟩] ∧
    (pcie_dispatch_uncorrectable_errors cfg_w dev_w2 0 0 0).filter
        (pU_clr ⟨0x20, "Surprise Down"⟩) =
      [⟨NOTIF_OKAY, PCIE_ERROR, PCIE_SEV_NOFATAL, PCIE_ERRORS_PLUGIN,
        pcie_dev_instance dev_w2, pcie_uncor_clr_msg PCIE_SEV_NOFATAL "Surprise Down", []⟩] ∧
    (pcie_dispatch_correctable_errors cfg_w dev_w1 0x40 0).filter
        (pC_set ⟨0x40, "Bad TLP Status"⟩) =
      [⟨NOTIF_WARNING, PCIE_ERROR, PCIE_SEV_CE, PCIE_ERRORS_PLUGIN,
        pcie_dev_instance dev_w1, pcie_cor_set_msg "Bad TLP Status", []⟩] ∧
    (pcie_dispatch_correctable_errors cfg_w dev_w2 0 0).filter
        (pC_clr ⟨0x40, "Bad TLP Status"⟩) =
      [⟨NOTIF_OKAY, PCIE_ERROR, PCIE_SEV_CE, PCIE_ERRORS_PLUGIN,
        pcie_dev_instance dev_w2, pcie_cor_clr_msg "Bad TLP Status", []⟩] := by
  refine ⟨?_, ?_, ?_, ?_, ?_, ?_⟩
  · rw [claim_C1.1 cfg_w dev_w1 acc_w1 64 ⟨4, "Fatal Error"⟩
      (by decide) (by decide) (by decide)]
    all_goals decide
  · rw [claim_C1.2.1 cfg_w dev_w2 acc_w0 64 ⟨8, "Unsupported Request"⟩
      (by decide) (by decide) (by decide)]
    all_goals decide
  · rw [claim_C1.2.2.1 cfg_w dev_w1 0x10 0 0x10 ⟨0x10, "Data Link Protocol"⟩
      (by decide) (by decide) (by decide) (by decide)]
    all_goals decide
  · rw [claim_C1.2.2.2.1 cfg_w dev_w2 0 0 0 ⟨0x20, "Surprise Down"⟩
      (by decide) (by decide) (by decide) (by decide)]
    all_goals decide
  · rw [claim_C1.2.2.2.2.1 cfg_w dev_w1 0x40 0 ⟨0x40, "Bad TLP Status"⟩
      (by decide) (by decide) (by decide) (by decide)]
  · rw [claim_C1.2.2.2.2.2 cfg_w dev_w2 0 0 ⟨0x40, "Bad TLP Status"⟩
      (by decide) (by decide) (by decide) (by decide)]

/-! ## Register attribution by type instance (for C2) -/

theorem cor_dispatch_filter_uncorti_nil (cfg : pcie_config_t) (dev : pcie_device_t)
    (errors masked : Nat) :
    (pcie_dispatch_correctable_errors cfg dev errors masked).filter
      (fun m => m.type_instance == PCIE_SEV_FATAL || m.type_instance == PCIE_SEV_NOFATAL) = [] := by
  refine filterMap_filter_nil _ _ _ ?_
  intro a _ m hm
  have hti := pcie_cor_entry_ti _ _ _ _ _ _ hm
  simp only [hti]
  decide

theorem uncor_dispatch_filter_corti_nil (cfg : pcie_config_t) (dev : pcie_device_t)
    (errors masked severity : Nat) :
    (pcie_dispatch_uncorrectable_errors cfg dev errors masked severity).filter
      (fun m => m.type_instance == PCIE_SEV_CE) = [] := by
  refine filterMap_filter_nil _ _ _ ?_
  intro a _ m hm
  rcases pcie_uncor_entry_ti _ _ _ _ _ _ _ hm with hti | hti <;>
    (simp only [hti]; decide)

/-- C2: with persistent mode off, a register whose freshly read value equals
the stored baseline contributes zero events to the cycle: the Device Status
path emits nothing at all earlier than the AER checks, and within the AER
check the uncorrectable register's events (type instance fatal/non-fatal)
respectively the correctable register's events (type instance correctable)
are absent when the corresponding status register is unchanged. -/
theorem claim_C2 (cfg : pcie_config_t) (dev : pcie_device_t) (acc : pcie_dev_access)
    (pos : Int) (hpers : cfg.persistent = false) :
    (pcie_read16 acc (pos + PCI_EXP_DEVSTA) &&& 0xf = dev.device_status →
      (pcie_check_dev_status cfg dev acc pos).1 = []) ∧
    (pcie_read32 acc (pos + PCI_ERR_UNCOR_STATUS) = dev.uncorrectable_errors →
      (pcie_check_aer cfg dev acc pos).1.filter
        (fun m => m.type_instance == PCIE_SEV_FATAL || m.type_instance == PCIE_SEV_NOFATAL) = []) ∧
    (pcie_read32 acc (pos + PCI_ERR_COR_STATUS) = dev.correctable_errors →
      (pcie_check_aer cfg dev acc pos).1.filter
        (fun m => m.type_instance == PCIE_SEV_CE) = []) := by
  refine ⟨?_, ?_, ?_⟩
  · intro h
    simp only [pcie_check_dev_status]
    rw [if_pos ⟨fun hc => Bool.false_ne_true (hpers ▸ hc.1), h⟩]
  · intro h
    have hgateU : ¬((cfg.persistent = true ∧ pcie_read32 acc (pos + PCI_ERR_UNCOR_STATUS) ≠ 0) ∨
        pcie_read32 acc (pos + PCI_ERR_UNCOR_STATUS) ≠ dev.uncorrectable_errors) :=
      fun hc => hc.elim (fun hp => Bool.false_ne_true (hpers ▸ hp.1)) (fun hne => hne h)
    simp only [pcie_check_aer, List.filter_append]
    split <;> split <;>
      first
        | (rename_i hcU hcC; exact absurd hcU hgateU)
        | simp [cor_dispatch_filter_uncorti_nil]
  · intro h
    have hgateC : ¬((cfg.persistent = true ∧ pcie_read32 acc (pos + PCI_ERR_COR_STATUS) ≠ 0) ∨
        pcie_read32 acc (pos + PCI_ERR_COR_STATUS) ≠ dev.correctable_errors) :=
      fun hc => hc.elim (fun hp => Bool.false_ne_true (hpers ▸ hp.1)) (fun hne => hne h)
    simp only [pcie_check_aer, List.filter_append]
    rw [if_neg hgateC]
    split <;> simp [uncor_dispatch_filter_corti_nil]


theorem claim_C2_witness :
    (pcie_check_dev_status cfg_w dev_w1 acc_w0 64).1 = [] ∧
    (pcie_check_aer cfg_w dev_w1 acc_w0 256).1.filter
      (fun m => m.type_instance == PCIE_SEV_FATAL || m.type_instance == PCIE_SEV_NOFATAL) = [] ∧
    (pcie_check_aer cfg_w dev_w1 acc_w0 256).1.filter
      (fun m => m.type_instance == PCIE_SEV_CE) = [] :=
  ⟨(claim_C2 cfg_w dev_w1 acc_w0 64 (by decide)).1 (by decide),
   (claim_C2 cfg_w dev_w1 acc_w0 256 (by decide)).2.1 (by decide),
   (claim_C2 cfg_w dev_w1 acc_w0 256 (by decide)).2.2 (by decide)⟩

/-- A filter by a weaker predicate is still empty. -/
theorem filter_sub_nil (l : List notification_t) (p q : notification_t → Bool)
    (hpq : ∀ m, q m = false → p m = false)
    (h : l.filter q = []) : l.filter p = [] := by
  rw [List.filter_eq_nil_iff] at h ⊢
  intro a ha hpa
  cases hqa : q a with
  | true => exact h a ha hqa
  | false =>
    rw [hpq a hqa] at hpa
    exact Bool.noConfusion hpa

/-- C5: with masked-error reporting off, an AER error bit that is marked
masked in the corresponding mask register never produces a "set" event,
whatever the status register, the severity register, the stored baseline and
the persistent flag are. -/
theorem claim_C5 (cfg : pcie_config_t) (hnm : cfg.notif_masked = false) :
    (∀ dev errors masked severity, ∀ err ∈ pcie_aer_ues,
      err.mask &&& masked ≠ 0 →
      (pcie_dispatch_uncorrectable_errors cfg dev errors masked severity).filter
        (pU_set err) = []) ∧
    (∀ dev errors masked, ∀ err ∈ pcie_aer_ces,
      err.mask &&& masked ≠ 0 →
      (pcie_dispatch_correctable_errors cfg dev errors masked).filter (pC_set err) = []) := by
  constructor
  · intro dev errors masked severity err hmem hmask
    exact filter_sub_nil _ _ _ (fun m hm => pU_any_false_set hm)
      (uncor_masked_nil cfg dev errors masked severity err hmem hnm hmask)
  · intro dev errors masked err hmem hmask
    exact filter_sub_nil _ _ _ (fun m hm => pC_any_false_set hm)
      (cor_masked_nil cfg dev errors masked err hmem hnm hmask)

theorem claim_C5_witness :
    (pcie_dispatch_uncorrectable_errors cfg_w dev_w1 0x10 0x10 0).filter
      (pU_set ⟨0x10, "Data Link Protocol"⟩) = [] ∧
    (pcie_dispatch_correctable_errors cfg_w dev_w1 0x40 0x40).filter
      (pC_set ⟨0x40, "Bad TLP Status"⟩) = [] :=
  ⟨(claim_C5 cfg_w (by decide)).1 dev_w1 0x10 0x10 0 ⟨0x10, "Data Link Protocol"⟩
     (by decide) (by decide),
   (claim_C5 cfg_w (by decide)).2 dev_w1 0x40 0x40 ⟨0x40, "Bad TLP Status"⟩
     (by decide) (by decide)⟩

/-! ## Per-cycle wrappers at the pcie_check_aer level -/

theorem check_aer_pU_any_masked_nil (cfg : pcie_config_t) (dev : pcie_device_t)
    (acc : pcie_dev_access) (pos : Int) (err : pcie_error_t)
    (hmem : err ∈ pcie_aer_ues) (hnm : cfg.notif_masked = false)
    (hmask : err.mask &&& pcie_read32 acc (pos + PCI_ERR_UNCOR_MASK) ≠ 0) :
    (pcie_check_aer cfg dev acc pos).1.filter (pU_any err) = [] := by
  simp only [pcie_check_aer, List.filter_append]
  split <;> split <;>
    simp [uncor_masked_nil cfg dev _ _ _ err hmem hnm hmask, cor_dispatch_pU_any_nil]

theorem check_aer_pC_any_masked_nil (cfg : pcie_config_t) (dev : pcie_device_t)
    (acc : pcie_dev_access) (pos : Int) (err : pcie_error_t)
    (hmem : err ∈ pcie_aer_ces) (hnm : cfg.notif_masked = false)
    (hmask : err.mask &&& pcie_read32 acc (pos + PCI_ERR_COR_MASK) ≠ 0) :
    (pcie_check_aer cfg dev acc pos).1.filter (pC_any err) = [] := by
  simp only [pcie_check_aer, List.filter_append]
  split <;> split <;>
    simp [cor_masked_nil _ _ _ _ err hmem hnm hmask, uncor_dispatch_pC_any_nil]

/-- C10: with masked-error reporting off, a masked AER bit (correctable or
uncorrectable) produces no event of any kind — set or cleared — in any poll
cycle of a sequence during which it stays masked, while the stored baselines
are nevertheless overwritten with the freshly read status values on every
cycle, so a transition suppressed this way is never reported later either. -/
theorem claim_C10 (cfg : pcie_config_t) (hnm : cfg.notif_masked = false) :
    (∀ (pos : Int) (accs : List pcie_dev_access) dev, ∀ err ∈ pcie_aer_ues,
      (∀ acc ∈ accs, err.mask &&& pcie_read32 acc (pos + PCI_ERR_UNCOR_MASK) ≠ 0) →
      (pcie_check_aer_cycles cfg pos dev accs).1.filter (pU_any err) = []) ∧
    (∀ (pos : Int) (accs : List pcie_dev_access) dev, ∀ err ∈ pcie_aer_ces,
      (∀ acc ∈ accs, err.mask &&& pcie_read32 acc (pos + PCI_ERR_COR_MASK) ≠ 0) →
      (pcie_check_aer_cycles cfg pos dev accs).1.filter (pC_any err) = []) ∧
    (∀ (pos : Int) (acc : pcie_dev_access) dev,
      (pcie_check_aer cfg dev acc pos).2.uncorrectable_errors =
        pcie_read32 acc (pos + PCI_ERR_UNCOR_STATUS) ∧
      (pcie_check_aer cfg dev acc pos).2.correctable_errors =
        pcie_read32 acc (pos + PCI_ERR_COR_STATUS)) := by
  refine ⟨?_, ?_, ?_⟩
  · intro pos accs
    induction accs with
    | nil => intro dev err _ _; rfl
    | cons acc rest ih =>
      intro dev err hmem hmask
      simp only [pcie_check_aer_cycles, List.filter_append]
      rw [check_aer_pU_any_masked_nil cfg dev acc pos err hmem hnm
          (hmask acc (List.mem_cons_self _ _)),
        List.nil_append]
      exact ih _ err hmem fun a ha => hmask a (List.mem_cons_of_mem _ ha)
  · intro pos accs
    induction accs with
    | nil => intro dev err _ _; rfl
    | cons acc rest ih =>
      intro dev err hmem hmask
      simp only [pcie_check_aer_cycles, List.filter_append]
      rw [check_aer_pC_any_masked_nil cfg dev acc pos err hmem hnm
          (hmask acc (List.mem_cons_self _ _)),
        List.nil_append]
      exact ih _ err hmem fun a ha => hmask a (List.mem_cons_of_mem _ ha)
  · intro pos acc dev
    constructor <;> simp [pcie_check_aer]

/-- Register environment for the C10 witness: uncorrectable status and mask
both read 0x10, correctable status and mask both read 0x40 (AER block at
0x100). -/
def acc_m : pcie_dev_access :=
  ⟨true, fun _ => some 0,
   fun _ => some 0,
   fun p => if p = 260 then some 0x10 else if p = 264 then some 0x10
            else if p = 272 then some 0x40 else if p = 276 then some 0x40 else some 0⟩

theorem claim_C10_witness :
    (pcie_check_aer_cycles cfg_w 256 dev_w1 [acc_m, acc_m]).1.filter
      (pU_any ⟨0x10, "Data Link Protocol"⟩) = [] ∧
    (pcie_check_aer_cycles cfg_w 256 dev_w1 [acc_m, acc_m]).1.filter
      (pC_any ⟨0x40, "Bad TLP Status"⟩) = [] ∧
    (pcie_check_aer cfg_w dev_w1 acc_m 256).2.uncorrectable_errors = 0x10 ∧
    (pcie_check_aer cfg_w dev_w1 acc_m 256).2.correctable_errors = 0x40 :=
  ⟨(claim_C10 cfg_w (by decide)).1 256 [acc_m, acc_m] dev_w1
     ⟨0x10, "Data Link Protocol"⟩ (by decide) (by decide),
   (claim_C10 cfg_w (by decide)).2.1 256 [acc_m, acc_m] dev_w1
     ⟨0x40, "Bad TLP Status"⟩ (by decide) (by decide),
   by
     rw [((claim_C10 cfg_w (by decide)).2.2 256 acc_m dev_w1).1]
     decide,
   by
     rw [((claim_C10 cfg_w (by decide)).2.2 256 acc_m dev_w1).2]
     decide⟩


/-! ## Skeleton preservation: polling only mutates the snapshot fields -/

theorem check_dev_status_cap (cfg : pcie_config_t) (dev : pcie_device_t)
    (acc : pcie_dev_access) (pos : Int) :
    (pcie_check_dev_status cfg dev acc pos).2.cap_exp = dev.cap_exp := by
  simp only [pcie_check_dev_status]
  split <;> rfl

theorem check_dev_status_ecap (cfg : pcie_config_t) (dev : pcie_device_t)
    (acc : pcie_dev_access) (pos : Int) :
    (pcie_check_dev_status cfg dev acc pos).2.ecap_aer = dev.ecap_aer := by
  simp only [pcie_check_dev_status]
  split <;> rfl

theorem check_aer_cap (cfg : pcie_config_t) (dev : pcie_device_t)
    (acc : pcie_dev_access) (pos : Int) :
    (pcie_check_aer cfg dev acc pos).2.cap_exp = dev.cap_exp := rfl

theorem check_aer_ecap (cfg : pcie_config_t) (dev : pcie_device_t)
    (acc : pcie_dev_access) (pos : Int) :
    (pcie_check_aer cfg dev acc pos).2.ecap_aer = dev.ecap_aer := rfl

theorem pcie_poll_device_cap (cfg : pcie_config_t) (dev : pcie_device_t)
    (acc : pcie_dev_access) :
    (pcie_poll_device cfg dev acc).2.cap_exp = dev.cap_exp := by
  simp only [pcie_poll_device]
  split
  · split
    · rw [check_aer_cap, check_dev_status_cap]
    · exact check_dev_status_cap cfg dev acc dev.cap_exp
  · rfl

theorem pcie_poll_device_ecap (cfg : pcie_config_t) (dev : pcie_device_t)
    (acc : pcie_dev_access) :
    (pcie_poll_device cfg dev acc).2.ecap_aer = dev.ecap_aer := by
  simp only [pcie_poll_device]
  split
  · split
    · rw [check_aer_ecap, check_dev_status_ecap]
    · exact check_dev_status_ecap cfg dev acc dev.cap_exp
  · rfl

/-! ## Cross-register zero-attribution at the check level -/

theorem check_dev_status_pU_any_nil (cfg : pcie_config_t) (dev : pcie_device_t)
    (acc : pcie_dev_access) (pos : Int) (err : pcie_error_t) :
    (pcie_check_dev_status cfg dev acc pos).1.filter (pU_any err) = [] := by
  simp only [pcie_check_dev_status]
  split
  · rfl
  · exact devsta_filterMap_pU_any_nil _ _ _ _

theorem check_dev_status_pC_any_nil (cfg : pcie_config_t) (dev : pcie_device_t)
    (acc : pcie_dev_access) (pos : Int) (err : pcie_error_t) :
    (pcie_check_dev_status cfg dev acc pos).1.filter (pC_any err) = [] := by
  simp only [pcie_check_dev_status]
  split
  · rfl
  · exact devsta_filterMap_pC_any_nil _ _ _ _

theorem check_aer_pD_any_nil (cfg : pcie_config_t) (dev : pcie_device_t)
    (acc : pcie_dev_access) (pos : Int) (err : pcie_error_t) :
    (pcie_check_aer cfg dev acc pos).1.filter (pD_any err) = [] := by
  simp only [pcie_check_aer, List.filter_append]
  split <;> split <;> simp [uncor_dispatch_pD_any_nil, cor_dispatch_pD_any_nil]

/-! ## Persistent mode: each cycle re-emits the set event exactly once -/

theorem check_dev_status_pD_set_one (cfg : pcie_config_t) (dev : pcie_device_t)
    (acc : pcie_dev_access) (pos : Int) (err : pcie_error_t)
    (hpers : cfg.persistent = true)
    (hmem : err ∈ pcie_base_errors)
    (hset : err.mask &&& (pcie_read16 acc (pos + PCI_EXP_DEVSTA) &&& 0xf) ≠ 0) :
    ((pcie_check_dev_status cfg dev acc pos).1.filter (pD_set err)).length = 1 := by
  have hns : pcie_read16 acc (pos + PCI_EXP_DEVSTA) &&& 0xf ≠ 0 := land_ne_zero_right hset
  simp only [pcie_check_dev_status]
  rw [if_neg fun hg => hg.1 ⟨hpers, hns⟩]
  rw [devsta_set_single cfg dev _ err hmem hset fun hsk => Bool.noConfusion (hpers ▸ hsk.1)]
  rfl

/-- The correctable branch of `pcie_check_aer` (whether gated on or off)
contributes no uncorrectable "set" event. -/
theorem ite_filter_pU_len_zero {c : Prop} [Decidable c] (cfg : pcie_config_t)
    (dev : pcie_device_t) (errors masked : Nat) (err : pcie_error_t) :
    ((if c then pcie_dispatch_correctable_errors cfg dev errors masked
      else []).filter (pU_set err)).length = 0 := by
  split
  · rw [filter_sub_nil _ _ _ (fun m hm => pU_any_false_set hm)
      (cor_dispatch_pU_any_nil _ _ _ _ _)]
    rfl
  · rfl

/-- The uncorrectable branch of `pcie_check_aer` (gated on or off)
contributes no correctable "set" event. -/
theorem ite_filter_pC_len_zero {c : Prop} [Decidable c] (cfg : pcie_config_t)
    (dev : pcie_device_t) (errors masked severity : Nat) (err : pcie_error_t) :
    ((if c then pcie_dispatch_uncorrectable_errors cfg dev errors masked severity
      else []).filter (pC_set err)).length = 0 := by
  split
  · rw [filter_sub_nil _ _ _ (fun m hm => pC_any_false_set hm)
      (uncor_dispatch_pC_any_nil _ _ _ _ _ _)]
    rfl
  · rfl

theorem check_aer_pU_set_one (cfg : pcie_config_t) (dev : pcie_device_t)
    (acc : pcie_dev_access) (pos : Int) (err : pcie_error_t)
    (hpers : cfg.persistent = true)
    (hmem : err ∈ pcie_aer_ues)
    (hmask : err.mask &&& pcie_read32 acc (pos + PCI_ERR_UNCOR_MASK) = 0)
    (hset : err.mask &&& pcie_read32 acc (pos + PCI_ERR_UNCOR_STATUS) ≠ 0) :
    ((pcie_check_aer cfg dev acc pos).1.filter (pU_set err)).length = 1 := by
  have herr : pcie_read32 acc (pos + PCI_ERR_UNCOR_STATUS) ≠ 0 := land_ne_zero_right hset
  simp only [pcie_check_aer, List.filter_append, List.length_append]
  rw [if_pos (Or.inl ⟨hpers, herr⟩)]
  rw [uncor_set_single cfg dev _ _ _ err hmem hmask hset
    fun hsk => Bool.noConfusion (hpers ▸ hsk.1)]
  rw [ite_filter_pU_len_zero]
  rfl

theorem check_aer_pC_set_one (cfg : pcie_config_t) (dev : pcie_device_t)
    (acc : pcie_dev_access) (pos : Int) (err : pcie_error_t)
    (hpers : cfg.persistent = true)
    (hmem : err ∈ pcie_aer_ces)
    (hmask : err.mask &&& pcie_read32 acc (pos + PCI_ERR_COR_MASK) = 0)
    (hset : err.mask &&& pcie_read32 acc (pos + PCI_ERR_COR_STATUS) ≠ 0) :
    ((pcie_check_aer cfg dev acc pos).1.filter (pC_set err)).length = 1 := by
  have herr : pcie_read32 acc (pos + PCI_ERR_COR_STATUS) ≠ 0 := land_ne_zero_right hset
  have hcor : (cfg.persistent = true ∧ pcie_read32 acc (pos + PCI_ERR_COR_STATUS) ≠ 0) ∨
      pcie_read32 acc (pos + PCI_ERR_COR_STATUS) ≠ dev.correctable_errors :=
    Or.inl ⟨hpers, herr⟩
  simp only [pcie_check_aer, List.filter_append, List.length_append]
  rw [if_pos hcor]
  rw [cor_set_single cfg _ _ _ err hmem hmask hset
    fun hsk => Bool.noConfusion (hpers ▸ hsk.1)]
  rw [ite_filter_pC_len_zero]
  rfl

theorem poll_pD_set_one (cfg : pcie_config_t) (dev : pcie_device_t)
    (acc : pcie_dev_access) (err : pcie_error_t)
    (hpers : cfg.persistent = true) (hopen : acc.open_ok = true)
    (hmem : err ∈ pcie_base_errors)
    (hset : err.mask &&& (pcie_read16 acc (dev.cap_exp + PCI_EXP_DEVSTA) &&& 0xf) ≠ 0) :
    ((pcie_poll_device cfg dev acc).1.filter (pD_set err)).length = 1 := by
  simp only [pcie_poll_device, hopen, if_true, List.filter_append, List.length_append]
  rw [check_dev_status_pD_set_one cfg dev acc dev.cap_exp err hpers hmem hset]
  split
  · rw [filter_sub_nil _ _ _ (fun m hm => pD_any_false_set hm) (check_aer_pD_any_nil _ _ _ _ _)]
    rfl
  · rfl

theorem poll_pU_set_one (cfg : pcie_config_t) (dev : pcie_device_t)
    (acc : pcie_dev_access) (err : pcie_error_t)
    (hpers : cfg.persistent = true) (hopen : acc.open_ok = true)
    (hecap : dev.ecap_aer ≠ -1)
    (hmem : err ∈ pcie_aer_ues)
    (hmask : err.mask &&& pcie_read32 acc (dev.ecap_aer + PCI_ERR_UNCOR_MASK) = 0)
    (hset : err.mask &&& pcie_read32 acc (dev.ecap_aer + PCI_ERR_UNCOR_STATUS) ≠ 0) :
    ((pcie_poll_device cfg dev acc).1.filter (pU_set err)).length = 1 := by
  simp only [pcie_poll_device, hopen, if_true, List.filter_append, List.length_append]
  rw [check_dev_status_ecap cfg dev acc dev.cap_exp, if_pos hecap]
  rw [filter_sub_nil _ _ _ (fun m hm => pU_any_false_set hm)
    (check_dev_status_pU_any_nil _ _ _ _ _)]
  rw [check_aer_pU_set_one cfg _ acc dev.ecap_aer err hpers hmem hmask hset]
  rfl

theorem poll_pC_set_one (cfg : pcie_config_t) (dev : pcie_device_t)
    (acc : pcie_dev_access) (err : pcie_error_t)
    (hpers : cfg.persistent = true) (hopen : acc.open_ok = true)
    (hecap : dev.ecap_aer ≠ -1)
    (hmem : err ∈ pcie_aer_ces)
    (hmask : err.mask &&& pcie_read32 acc (dev.ecap_aer + PCI_ERR_COR_MASK) = 0)
    (hset : err.mask &&& pcie_read32 acc (dev.ecap_aer + PCI_ERR_COR_STATUS) ≠ 0) :
    ((pcie_poll_device cfg dev acc).1.filter (pC_set err)).length = 1 := by
  simp only [pcie_poll_device, hopen, if_true, List.filter_append, List.length_append]
  rw [check_dev_status_ecap cfg dev acc dev.cap_exp, if_pos hecap]
  rw [filter_sub_nil _ _ _ (fun m hm => pC_any_false_set hm)
    (check_dev_status_pC_any_nil _ _ _ _ _)]
  rw [check_aer_pC_set_one cfg _ acc dev.ecap_aer err hpers hmem hmask hset]
  rfl

/-- C4: with persistent mode on, a catalog bit that reads as set (and, for
the AER catalogs, unmasked) in the fixed register environment produces its
"set" event on every one of N consecutive poll cycles — N events in total,
not one. -/
theorem claim_C4 (cfg : pcie_config_t) (hpers : cfg.persistent = true) :
    (∀ dev acc err (N : Nat), acc.open_ok = true → err ∈ pcie_base_errors →
      err.mask &&& (pcie_read16 acc (dev.cap_exp + PCI_EXP_DEVSTA) &&& 0xf) ≠ 0 →
      ((pcie_poll_cycles cfg acc dev N).1.filter (pD_set err)).length = N) ∧
    (∀ dev acc err (N : Nat), acc.open_ok = true → dev.ecap_aer ≠ -1 →
      err ∈ pcie_aer_ues →
      err.mask &&& pcie_read32 acc (dev.ecap_aer + PCI_ERR_UNCOR_MASK) = 0 →
      err.mask &&& pcie_read32 acc (dev.ecap_aer + PCI_ERR_UNCOR_STATUS) ≠ 0 →
      ((pcie_poll_cycles cfg acc dev N).1.filter (pU_set err)).length = N) ∧
    (∀ dev acc err (N : Nat), acc.open_ok = true → dev.ecap_aer ≠ -1 →
      err ∈ pcie_aer_ces →
      err.mask &&& pcie_read32 acc (dev.ecap_aer + PCI_ERR_COR_MASK) = 0 →
      err.mask &&& pcie_read32 acc (dev.ecap_aer + PCI_ERR_COR_STATUS) ≠ 0 →
      ((pcie_poll_cycles cfg acc dev N).1.filter (pC_set err)).length = N) := by
  refine ⟨?_, ?_, ?_⟩
  · intro dev acc err N hopen hmem hset
    revert dev
    induction N with
    | zero => intro dev _; rfl
    | succ n ih =>
      intro dev hset
      simp only [pcie_poll_cycles, List.filter_append, List.length_append]
      rw [poll_pD_set_one cfg dev acc err hpers hopen hmem hset]
      have hset2 : err.mask &&&
          (pcie_read16 acc ((pcie_poll_device cfg dev acc).2.cap_exp + PCI_EXP_DEVSTA) &&& 0xf)
            ≠ 0 := by
        rw [pcie_poll_device_cap]
        exact hset
      rw [ih _ hset2]
      omega
  · intro dev acc err N hopen hecap hmem hmask hset
    revert dev
    induction N with
    | zero => intro dev _ _ _; rfl
    | succ n ih =>
      intro dev hecap hmask hset
      simp only [pcie_poll_cycles, List.filter_append, List.length_append]
      rw [poll_pU_set_one cfg dev acc err hpers hopen hecap hmem hmask hset]
      have he2 := pcie_poll_device_ecap cfg dev acc
      rw [ih _ (he2 ▸ hecap) (he2 ▸ hmask) (he2 ▸ hset)]
      omega
  · intro dev acc err N hopen hecap hmem hmask hset
    revert dev
    induction N with
    | zero => intro dev _ _ _; rfl
    | succ n ih =>
      intro dev hecap hmask hset
      simp only [pcie_poll_cycles, List.filter_append, List.length_append]
      rw [poll_pC_set_one cfg dev acc err hpers hopen hecap hmem hmask hset]
      have he2 := pcie_poll_device_ecap cfg dev acc
      rw [ih _ (he2 ▸ hecap) (he2 ▸ hmask) (he2 ▸ hset)]
      omega

/-- Register environment for the C4 witness: Device Status reads 1 (CED),
AER uncorrectable status reads 0x10, correctable status reads 1, both mask
registers read 0 (AER block at 0x100, capability block at 0x40). -/
def acc_p : pcie_dev_access :=
  ⟨true, fun _ => some 0,
   fun p => if p = 74 then some 1 else some 0,
   fun p => if p = 260 then some 0x10 else if p = 272 then some 1 else some 0⟩

theorem claim_C4_witness :
    ((pcie_poll_cycles cfg_p acc_p dev_w1 3).1.filter
      (pD_set ⟨1, "Correctable Error"⟩)).length = 3 ∧
    ((pcie_poll_cycles cfg_p acc_p dev_w1 3).1.filter
      (pU_set ⟨0x10, "Data Link Protocol"⟩)).length = 3 ∧
    ((pcie_poll_cycles cfg_p acc_p dev_w1 3).1.filter
      (pC_set ⟨1, "Receiver Error Status"⟩)).length = 3 :=
  ⟨(claim_C4 cfg_p (by decide)).1 dev_w1 acc_p ⟨1, "Correctable Error"⟩ 3
     (by decide) (by decide) (by decide),
   (claim_C4 cfg_p (by decide)).2.1 dev_w1 acc_p ⟨0x10, "Data Link Protocol"⟩ 3
     (by decide) (by decide) (by decide) (by decide) (by decide),
   (claim_C4 cfg_p (by decide)).2.2 dev_w1 acc_p ⟨1, "Receiver Error Status"⟩ 3
     (by decide) (by decide) (by decide) (by decide) (by decide)⟩


/-! ## C3: open failures versus read failures -/

/-- A device whose baseline has the correctable Device Status bit latched
and that has no AER capability. -/
def dev_c3 : pcie_device_t := ⟨0, 1, 2, 3, 64, -1, 1, 0, 0⟩

/-- Register environment whose open succeeds but whose every 16-bit read
fails. -/
def acc_c3 : pcie_dev_access :=
  ⟨true, fun _ => some 0, fun _ => none, fun _ => some 0⟩

/-- Register environment whose open fails. -/
def acc_f : pcie_dev_access :=
  ⟨false, fun _ => some 0, fun _ => some 0, fun _ => some 0⟩

theorem claim_C3_counterexample :
    (pcie_process_devices cfg_w [(dev_c3, acc_c3)]).1.filter
      (fun m => m.severity == NOTIF_FAILURE) = [] ∧
    (pcie_process_devices cfg_w [(dev_c3, acc_c3)]).1 =
      [⟨NOTIF_OKAY, PCIE_ERROR, PCIE_SEV_CE, PCIE_ERRORS_PLUGIN,
        pcie_dev_instance dev_c3, pcie_devsta_clr_msg "Correctable Error", []⟩] ∧
    (pcie_process_devices cfg_w [(dev_c3, acc_c3)]).2.1 =
      [{ dev_c3 with device_status := 0 }] ∧
    dev_c3.device_status = 1 := by
  refine ⟨?_, ?_, ?_, ?_⟩ <;> decide

/-- C3 (amended): a device whose OPEN fails yields exactly one failure
event, polling continues for the remaining devices, the failing device's
snapshot is unchanged and the cycle result is -1; a failed register READ is
not reported at all: `pcie_read16` yields 0, so the cycle proceeds as if the
register read all-clear, emits only severity-ok "cleared" events and
overwrites the baseline with 0. -/
theorem claim_C3 :
    (∀ cfg (L1 L2 : List (pcie_device_t × pcie_dev_access)) dev acc,
      acc.open_ok = false →
      pcie_process_devices cfg (L1 ++ (dev, acc) :: L2) =
        ((pcie_process_devices cfg L1).1 ++
           pcie_open_fail_notif dev :: (pcie_process_devices cfg L2).1,
         (pcie_process_devices cfg L1).2.1 ++ dev :: (pcie_process_devices cfg L2).2.1,
         -1)) ∧
    (∀ cfg dev acc (pos : Int),
      acc.read16 (pos + PCI_EXP_DEVSTA) = none →
      (pcie_check_dev_status cfg dev acc pos).2.device_status = 0 ∧
      ∀ m ∈ (pcie_check_dev_status cfg dev acc pos).1, m.severity = NOTIF_OKAY) := by
  constructor
  · intro cfg L1 L2 dev acc ha
    induction L1 with
    | nil =>
      simp [pcie_process_devices, pcie_poll_device, ha]
    | cons x L1 ih =>
      simp only [List.cons_append, pcie_process_devices, List.append_eq]
      rw [ih]
      simp [List.append_assoc, ite_self]
  · intro cfg dev acc pos hread
    have hz : pcie_read16 acc (pos + PCI_EXP_DEVSTA) &&& 0xf = 0 := by
      simp [pcie_read16, hread]
    constructor
    · simp only [pcie_check_dev_status, hz]
      split
      · rename_i hg
        exact hg.2.symm
      · rfl
    · intro m hm
      simp only [pcie_check_dev_status, hz] at hm
      revert hm
      split
      · intro hm
        cases hm
      · intro hm
        obtain ⟨a, _, hae⟩ := List.mem_filterMap.mp hm
        simp only [pcie_devsta_entry] at hae
        split_ifs at hae <;>
          first
            | exact Option.noConfusion hae
            | exact absurd (show a.mask &&& 0 = 0 by simp) (by assumption)
            | (injection hae with h4
               rw [← h4])

theorem claim_C3_witness :
    pcie_process_devices cfg_w [(dev_w1, acc_w0), (dev_w2, acc_f)] =
      ([pcie_open_fail_notif dev_w2], [dev_w1, dev_w2], -1) ∧
    (pcie_check_dev_status cfg_w dev_c3 acc_c3 64).2.device_status = 0 := by
  constructor
  · have h := claim_C3.1 cfg_w [(dev_w1, acc_w0)] [] dev_w2 acc_f (by decide)
    simp only [List.singleton_append] at h
    rw [h]
    decide
  · exact (claim_C3.2 cfg_w dev_c3 acc_c3 64 (by decide)).1


/-! ## C8: pruning invariant and AER-absent devices -/

/-- C8: (1) every device surviving `pcie_preprocess_devices` has a PCI
Express capability offset, so a device without one is never in the polled
registry; (2) polling a device whose AER offset is absent consults nothing
but the open outcome and the Device Status register: two register
environments that agree there produce identical poll results, so the AER
registers are never read. -/
theorem claim_C8 :
    (∀ (fuel : Nat) (devs : List (pcie_device_t × pcie_dev_access)),
      ∀ x ∈ pcie_preprocess_devices fuel devs, x.1.cap_exp ≠ -1) ∧
    (∀ cfg dev (acc acc' : pcie_dev_access),
      dev.ecap_aer = -1 →
      acc.open_ok = acc'.open_ok →
      acc.read16 (dev.cap_exp + PCI_EXP_DEVSTA) = acc'.read16 (dev.cap_exp + PCI_EXP_DEVSTA) →
      pcie_poll_device cfg dev acc = pcie_poll_device cfg dev acc') := by
  constructor
  · intro fuel devs x hx
    rw [pcie_preprocess_devices] at hx
    obtain ⟨da, _, hda⟩ := List.mem_filterMap.mp hx
    split at hda
    · dsimp only at hda
      split at hda <;> split at hda <;>
        first
          | exact Option.noConfusion hda
          | (rename_i hcap
             injection hda with h
             rw [← h]
             exact hcap)
    · exact Option.noConfusion hda
  · intro cfg dev acc acc' hecap hopen hread
    have hcds : pcie_check_dev_status cfg dev acc dev.cap_exp =
        pcie_check_dev_status cfg dev acc' dev.cap_exp := by
      simp only [pcie_check_dev_status, pcie_read16, hread]
    simp [pcie_poll_device, hopen, hcds, check_dev_status_ecap, hecap]

/-- A freshly enumerated device record, as built by `pcie_add_device`. -/
def dev_e : pcie_device_t := ⟨0, 1, 2, 3, -1, -1, 0, 0, 0⟩

/-- Config space exposing a capability list whose first entry is the PCI
Express capability at 0x40 and no extended capabilities. -/
def acc_c8 : pcie_dev_access :=
  ⟨true,
   fun p => if p = 0x34 then some 0x40 else if p = 0x40 then some 0x10 else some 0,
   fun p => if p = 6 then some 0x10 else some 0,
   fun _ => some 0⟩

/-- A second environment agreeing with `acc_w1` only on the open outcome
and on the Device Status register of `dev_c3`. -/
def acc_c8b : pcie_dev_access :=
  ⟨true, fun _ => some 7, fun p => if p = 74 then some 4 else some 9, fun _ => some 7⟩

theorem claim_C8_witness :
    (({dev_e with cap_exp := 64, ecap_aer := -1}, acc_c8) :
        pcie_device_t × pcie_dev_access).1.cap_exp ≠ -1 ∧
    pcie_poll_device cfg_w dev_c3 acc_w1 = pcie_poll_device cfg_w dev_c3 acc_c8b :=
  ⟨claim_C8.1 8 [(dev_e, acc_c8)] ({dev_e with cap_exp := 64, ecap_aer := -1}, acc_c8)
     (by rw [show pcie_preprocess_devices 8 [(dev_e, acc_c8)] =
           [({dev_e with cap_exp := 64, ecap_aer := -1}, acc_c8)] from rfl]
         exact List.mem_singleton_self _),
   claim_C8.2 cfg_w dev_c3 acc_w1 acc_c8b rfl rfl (by decide)⟩

/-! ## C9: the capability walk has no iteration cap -/

/-- Config space with a cyclic capability list: the capability pointer leads
to 0x40, whose ID is 5 (neither the PCI Express ID nor the 0xff terminator)
and whose next pointer points back to 0x40. -/
def acc_cyc : pcie_dev_access :=
  ⟨true,
   fun p => if p = 0x34 then some 0x40 else if p = 0x40 then some 5
            else if p = 0x41 then some 0x40 else some 0,
   fun _ => some 0, fun _ => some 0⟩

/-- On the cyclic list the walk loop never exits: whatever the iteration
budget, it is still running when the budget ends. -/
theorem find_cap_exp_cyc_go (fuel : Nat) :
    pcie_find_cap_exp_go acc_cyc fuel 64 = none := by
  induction fuel with
  | zero => rfl
  | succ n ih =>
    exact (show pcie_find_cap_exp_go acc_cyc (n + 1) 64 =
      pcie_find_cap_exp_go acc_cyc n 64 from rfl).trans ih

/-- C9 (amended): `pcie_find_cap_exp` has no iteration cap: on a cyclic
capability list it follows next pointers indefinitely, never returning, for
every iteration budget. -/
theorem claim_C9 (fuel : Nat) : pcie_find_cap_exp acc_cyc fuel = none := by
  have h : pcie_read8 acc_cyc PCI_CAPABILITY_LIST &&& 252 = 64 := by decide
  rw [pcie_find_cap_exp, h]
  exact find_cap_exp_cyc_go fuel

theorem claim_C9_witness : pcie_find_cap_exp acc_cyc 256 = none := claim_C9 256

theorem claim_C9_counterexample : pcie_find_cap_exp acc_cyc 1000 = none := by
  have h : pcie_read8 acc_cyc PCI_CAPABILITY_LIST &&& 252 = 64 := by decide
  rw [pcie_find_cap_exp, h]
  exact find_cap_exp_cyc_go 1000


/-! ## C6: what the fnmatch severity patterns actually match -/

/-- `sub` occurs as a contiguous substring of the character list. -/
def containsL (sub : List Char) : List Char → Bool
  | [] => isPre sub []
  | c :: cs => isPre sub (c :: cs) || containsL sub cs

/-- `sub` occurs as a contiguous substring of `v`. -/
def strContains (v sub : String) : Bool := containsL sub.data v.data

/-- Lowercase every character. -/
def lowerL (l : List Char) : List Char := l.map Char.toLower

/-- Modelled from the spec: "case-insensitive substring match" — `sub`
occurs in `v` when both are compared with all letter case folded away. -/
def spec_contains_ci (v sub : String) : Bool :=
  containsL (lowerL sub.data) (lowerL v.data)

theorem matchAt_non_fatal (l : List Char) :
    matchAt pcie_pat_non_fatal l =
      (isPre "non-fatal".data l || isPre "Non-fatal".data l ||
       isPre "non-Fatal".data l || isPre "Non-Fatal".data l) := by
  rw [show "non-fatal".data = ['n','o','n','-','f','a','t','a','l'] from rfl,
      show "Non-fatal".data = ['N','o','n','-','f','a','t','a','l'] from rfl,
      show "non-Fatal".data = ['n','o','n','-','F','a','t','a','l'] from rfl,
      show "Non-Fatal".data = ['N','o','n','-','F','a','t','a','l'] from rfl]
  rcases l with _ | ⟨c0, _ | ⟨c1, _ | ⟨c2, _ | ⟨c3, _ | ⟨c4, _ | ⟨c5, _ | ⟨c6, _ |
    ⟨c7, _ | ⟨c8, rest⟩⟩⟩⟩⟩⟩⟩⟩⟩ <;>
    simp only [matchAt, isPre, pcie_pat_non_fatal, pcie_cls_nN, pcie_cls_fF,
      Bool.and_false, Bool.and_true, Bool.false_and, Bool.true_and,
      Bool.or_false, Bool.false_or, Bool.or_self]
  cases c0 == 'n' <;> cases c0 == 'N' <;> cases c1 == 'o' <;> cases c2 == 'n' <;>
    cases c3 == '-' <;> cases c4 == 'f' <;> cases c4 == 'F' <;> cases c5 == 'a' <;>
    cases c6 == 't' <;> cases c7 == 'a' <;> cases c8 == 'l' <;> rfl

theorem matchAt_fatal (l : List Char) :
    matchAt pcie_pat_fatal l =
      (isPre "fatal".data l || isPre "Fatal".data l) := by
  rw [show "fatal".data = ['f','a','t','a','l'] from rfl,
      show "Fatal".data = ['F','a','t','a','l'] from rfl]
  rcases l with _ | ⟨c0, _ | ⟨c1, _ | ⟨c2, _ | ⟨c3, _ | ⟨c4, rest⟩⟩⟩⟩⟩ <;>
    simp only [matchAt, isPre, pcie_pat_fatal, pcie_cls_fF,
      Bool.and_false, Bool.and_true, Bool.false_and, Bool.true_and,
      Bool.or_false, Bool.false_or, Bool.or_self]
  cases c0 == 'f' <;> cases c0 == 'F' <;> cases c1 == 'a' <;> cases c2 == 't' <;>
    cases c3 == 'a' <;> cases c4 == 'l' <;> rfl

theorem containsPat_non_fatal (l : List Char) :
    containsPat pcie_pat_non_fatal l =
      (containsL "non-fatal".data l || containsL "Non-fatal".data l ||
       containsL "non-Fatal".data l || containsL "Non-Fatal".data l) := by
  induction l with
  | nil => rfl
  | cons c cs ih =>
    simp only [containsPat, containsL, matchAt_non_fatal, ih]
    cases isPre "non-fatal".data (c :: cs) <;> cases isPre "Non-fatal".data (c :: cs) <;>
      cases isPre "non-Fatal".data (c :: cs) <;> cases isPre "Non-Fatal".data (c :: cs) <;>
      cases containsL "non-fatal".data cs <;> cases containsL "Non-fatal".data cs <;>
      cases containsL "non-Fatal".data cs <;> cases containsL "Non-Fatal".data cs <;> rfl

theorem containsPat_fatal (l : List Char) :
    containsPat pcie_pat_fatal l =
      (containsL "fatal".data l || containsL "Fatal".data l) := by
  induction l with
  | nil => rfl
  | cons c cs ih =>
    simp only [containsPat, containsL, matchAt_fatal, ih]
    cases isPre "fatal".data (c :: cs) <;> cases isPre "Fatal".data (c :: cs) <;>
      cases containsL "fatal".data cs <;> cases containsL "Fatal".data cs <;> rfl

/-- C6 (amended): the severity text is classified by the fnmatch patterns
`*[nN]on-[fF]atal*` and `*[fF]atal*`, in which only the leading letters are
case-insensitive: the non-fatal pattern matches exactly when one of the four
variants "non-fatal"/"Non-fatal"/"non-Fatal"/"Non-Fatal" occurs as a
substring, the fatal pattern exactly when "fatal" or "Fatal" occurs; they
are tried in that priority order (non-fatal first, else fatal with event
severity failure, else correctable), so a value containing "Non-Fatal"
classifies as non-fatal — but a fully upper-case "NON-FATAL" matches
neither pattern and falls through to correctable. -/
theorem claim_C6 :
    (∀ v : String, pcie_match_non_fatal v =
      (strContains v "non-fatal" || strContains v "Non-fatal" ||
       strContains v "non-Fatal" || strContains v "Non-Fatal")) ∧
    (∀ v : String, pcie_match_fatal v =
      (strContains v "fatal" || strContains v "Fatal")) ∧
    (∀ v : String, v ≠ "" →
      (pcie_parse_msg [⟨"severity", v⟩]).type_instance =
        (if pcie_match_non_fatal v then PCIE_SEV_NOFATAL
         else if pcie_match_fatal v then PCIE_SEV_FATAL else PCIE_SEV_CE) ∧
      (pcie_parse_msg [⟨"severity", v⟩]).severity =
        (if pcie_match_non_fatal v then NOTIF_WARNING
         else if pcie_match_fatal v then NOTIF_FAILURE else NOTIF_WARNING)) ∧
    (∀ v : String, v ≠ "" → strContains v "Non-Fatal" = true →
      (pcie_parse_msg [⟨"severity", v⟩]).type_instance = PCIE_SEV_NOFATAL) := by
  have hsingle : ∀ v : String, v ≠ "" →
      (pcie_parse_msg [⟨"severity", v⟩]).type_instance =
        (if pcie_match_non_fatal v then PCIE_SEV_NOFATAL
         else if pcie_match_fatal v then PCIE_SEV_FATAL else PCIE_SEV_CE) ∧
      (pcie_parse_msg [⟨"severity", v⟩]).severity =
        (if pcie_match_non_fatal v then NOTIF_WARNING
         else if pcie_match_fatal v then NOTIF_FAILURE else NOTIF_WARNING) := by
    intro v hv
    simp only [pcie_parse_msg, pcie_parse_items, pcie_parse_item]
    rw [if_neg hv, if_pos (show strPre "severity" "severity" = true from rfl)]
    constructor <;> (split_ifs <;> rfl)
  refine ⟨fun v => containsPat_non_fatal v.data, fun v => containsPat_fatal v.data,
    hsingle, ?_⟩
  intro v hv hocc
  have hnf : pcie_match_non_fatal v = true := by
    unfold pcie_match_non_fatal
    rw [containsPat_non_fatal v.data]
    have : containsL "Non-Fatal".data v.data = true := hocc
    rw [this]
    simp
  rw [(hsingle v hv).1, if_pos hnf]

theorem claim_C6_counterexample :
    spec_contains_ci "NON-FATAL" "non-fatal" = true ∧
    (pcie_parse_msg [⟨"severity", "NON-FATAL"⟩]).type_instance = PCIE_SEV_CE ∧
    PCIE_SEV_CE ≠ PCIE_SEV_NOFATAL := by
  refine ⟨?_, ?_, ?_⟩ <;> decide

theorem claim_C6_witness :
    pcie_match_non_fatal "severity=Non-Fatal, type=..." = true ∧
    (pcie_parse_msg [⟨"severity", "Non-Fatal"⟩]).type_instance = PCIE_SEV_NOFATAL ∧
    (pcie_parse_msg [⟨"severity", "Fatal"⟩]).type_instance = PCIE_SEV_FATAL ∧
    (pcie_parse_msg [⟨"severity", "Corrected"⟩]).type_instance = PCIE_SEV_CE := by
  refine ⟨?_, ?_, ?_, ?_⟩
  · rw [claim_C6.1 "severity=Non-Fatal, type=..."]
    decide
  · exact claim_C6.2.2.2 "Non-Fatal" (by decide) (by decide)
  · rw [(claim_C6.2.2.1 "Fatal" (by decide)).1]
    decide
  · rw [(claim_C6.2.2.1 "Corrected" (by decide)).1]
    decide


/-! ## C7: subject identity, metadata, and the break on an empty value -/

/-- Follows the spec's words (section 4.5): every field that is neither the
severity field nor the device-identity field becomes a metadata key/value
pair, in declared order. -/
def spec_meta_fields (items : List message_item) : List (String × String) :=
  (items.filter fun it => !strPre "severity" it.name && !strPre "device" it.name).map
    fun it => (it.name, it.value)

/-- Follows the spec's words: the device-identity field's value becomes the
event's subject identity (the last such field winning). -/
def spec_subject (items : List message_item) : String :=
  items.foldl (fun acc it => if strPre "device" it.name then it.value else acc) ""

/-- A name with prefix "severity" cannot also have prefix "device". -/
theorem strPre_sev_dev (nm : String) (h : strPre "severity" nm = true) :
    strPre "device" nm = false := by
  unfold strPre at h ⊢
  rw [show "severity".data = 's' :: "everity".data from rfl] at h
  rw [show "device".data = 'd' :: "evice".data from rfl]
  cases hd : nm.data with
  | nil => rw [hd] at h; exact Bool.noConfusion h
  | cons c cs =>
    rw [hd] at h
    rw [isPre] at h
    have hc : c = 's' := by
      have := (Bool.and_eq_true _ _).mp h
      simpa using this.1
    subst hc
    simp [isPre]

theorem parse_item_pi (n : notification_t) (it : message_item) :
    (pcie_parse_item n it).plugin_instance =
      if strPre "device" it.name then it.value else n.plugin_instance := by
  unfold pcie_parse_item
  split_ifs <;> simp_all [strPre_sev_dev]

theorem parse_item_meta (n : notification_t) (it : message_item) :
    (pcie_parse_item n it).meta =
      n.meta ++ (if !strPre "severity" it.name && !strPre "device" it.name
                 then [(it.name, it.value)] else []) := by
  unfold pcie_parse_item
  split_ifs <;> simp_all

theorem spec_meta_fields_cons (it : message_item) (rest : List message_item) :
    spec_meta_fields (it :: rest) =
      (if !strPre "severity" it.name && !strPre "device" it.name
       then [(it.name, it.value)] else []) ++ spec_meta_fields rest := by
  unfold spec_meta_fields
  rw [List.filter_cons]
  split_ifs <;> simp

/-- Accumulator-generalized description of the item loop on all-nonempty
field sets. -/
theorem parse_items_fields (items : List message_item) :
    ∀ n : notification_t, (∀ it ∈ items, it.value ≠ "") →
      (pcie_parse_items n items).plugin_instance =
        items.foldl (fun acc it => if strPre "device" it.name then it.value else acc)
          n.plugin_instance ∧
      (pcie_parse_items n items).meta = n.meta ++ spec_meta_fields items := by
  induction items with
  | nil =>
    intro n _
    exact ⟨rfl, (List.append_nil _).symm⟩
  | cons it rest ih =>
    intro n hne
    rw [pcie_parse_items, if_neg (hne it (List.mem_cons_self _ _))]
    have step := ih (pcie_parse_item n it) fun a ha => hne a (List.mem_cons_of_mem _ ha)
    refine ⟨?_, ?_⟩
    · rw [step.1, List.foldl_cons, parse_item_pi]
    · rw [step.2, parse_item_meta, spec_meta_fields_cons, List.append_assoc]

/-- C7 (amended): the item loop stops at the first field whose value is
empty — that field and all later ones are ignored; on a field set whose
values are all non-empty, the device-identity field's value becomes the
event's subject identity (the last one winning) and exactly the fields that
are neither severity- nor device-named become metadata pairs, in order. -/
theorem claim_C7 :
    (∀ (n : notification_t) (items : List message_item),
      pcie_parse_items n items =
        pcie_parse_items n (items.takeWhile fun it => !(it.value == ""))) ∧
    (∀ items : List message_item, (∀ it ∈ items, it.value ≠ "") →
      (pcie_parse_msg items).plugin_instance = spec_subject items ∧
      (pcie_parse_msg items).meta = spec_meta_fields items) := by
  constructor
  · intro n items
    induction items generalizing n with
    | nil => rfl
    | cons it rest ih =>
      rw [List.takeWhile_cons]
      by_cases hv : it.value = ""
      · rw [if_neg (by simp [hv])]
        show (if it.value = "" then n else pcie_parse_items (pcie_parse_item n it) rest) = n
        rw [if_pos hv]
      · rw [if_pos (by simp [hv])]
        show (if it.value = "" then n else pcie_parse_items (pcie_parse_item n it) rest) =
          (if it.value = "" then n
           else pcie_parse_items (pcie_parse_item n it)
             (rest.takeWhile fun it => !(it.value == "")))
        rw [if_neg hv, if_neg hv]
        exact ih (pcie_parse_item n it)
  · intro items hall
    have h := parse_items_fields items ⟨NOTIF_WARNING, "", "", PCIE_ERRORS_PLUGIN, "", "", []⟩ hall
    constructor
    · simp only [pcie_parse_msg]
      exact h.1
    · simp only [pcie_parse_msg]
      rw [h.2]
      rfl

theorem claim_C7_counterexample :
    (pcie_parse_msg [⟨"root port", "pcieport 0000:00:03.0"⟩, ⟨"device", "0000:02:00.0"⟩,
        ⟨"severity", "Corrected"⟩, ⟨"error type", ""⟩, ⟨"id", "0008"⟩]).meta =
      [("root port", "pcieport 0000:00:03.0")] ∧
    ("id", "0008") ∉ (pcie_parse_msg [⟨"root port", "pcieport 0000:00:03.0"⟩,
        ⟨"device", "0000:02:00.0"⟩, ⟨"severity", "Corrected"⟩, ⟨"error type", ""⟩,
        ⟨"id", "0008"⟩]).meta := by
  constructor <;> decide

theorem claim_C7_witness :
    (pcie_parse_msg [⟨"root port", "p"⟩, ⟨"device", "d"⟩, ⟨"severity", "Fatal"⟩,
        ⟨"id", "0008"⟩]).plugin_instance = "d" ∧
    (pcie_parse_msg [⟨"root port", "p"⟩, ⟨"device", "d"⟩, ⟨"severity", "Fatal"⟩,
        ⟨"id", "0008"⟩]).meta = [("root port", "p"), ("id", "0008")] := by
  have h := claim_C7.2
    [⟨"root port", "p"⟩, ⟨"device", "d"⟩, ⟨"severity", "Fatal"⟩, ⟨"id", "0008"⟩]
    (by decide)
  constructor
  · rw [h.1]
    decide
  · rw [h.2]
    decide

end PcieErrors
